import Mathlib

/-!
# Heat-Logger prediction engine: shallow embedding and verification

This file embeds the prediction engines of the Heat-Logger repository in
Lean 4 and settles the specification's claims about them.

The Go sources compute with `float64`; the embedding computes with `ℚ`.
The transcendental library calls (`math.Exp`, `math.Sqrt`, `math.Ln2`)
have no exact rational counterpart, so the engine functions receive a
`FloatOracle` bundling those three; theorems assume of the oracle only
properties the real functions enjoy (positivity of `exp`, `exp 0 = 1`),
and closed evaluations use such an oracle in scenarios engineered so that
the engine's output does not depend on any other value of the oracle
(positive weights cancel, or the exponential is only applied at `0`).

Embedded engines, each in its own namespace, named after its source:
* `V1`  — `backend/internal/services/prediction_service.go`
* `V1H` — the hybrid user/global revision of the v1 service
          (the repository file with `getCombinedPrediction`,
          `isStuckInPattern`, `handleStuckPattern`)
* `V2`  — `backend/internal/services/prediction_service_v2.go`
          (Gaussian-kNN, `weightedMean` over raw heating times)
* `V2T` — the revision of the v2 service with `impliedTarget`,
          `weightedMeanTargets`, `latestSimilarUserRecord`, `smartRound`

`time.Time` values are embedded as rational timestamps measured in days
(`Date` becomes `date : ℚ`); the predictors take the clock reading `now`
as an explicit argument, `now.Sub(r.Date).Hours()/24.0` becomes
`now - r.date`, and `r.Date.After(l.Date)` becomes `l.date < r.date`.
Go `for` loops that accumulate scalars become recursive helper functions;
since rational addition is exact and commutative the accumulation order
cannot change any result.
-/

/-- One stored observation: `models.DailyRecord`.  Fields the prediction
engines never read (`ID`, `UserID`, `CreatedAt`, `UpdatedAt`) are omitted;
`Date` is embedded as a rational timestamp in days. -/
structure DailyRecord where
  date : ℚ
  showerDuration : ℚ
  averageTemperature : ℚ
  heatingTime : ℚ
  satisfaction : ℚ
deriving DecidableEq

/-- A prediction query: `PredictionRequest` (duration and temperature; the
`UserID` field only selects which records the store fetches, and the
fetched record lists are explicit arguments here). -/
structure PredictionRequest where
  duration : ℚ
  temperature : ℚ
deriving DecidableEq

/-- The three transcendental values the Go engines take from `math`:
`math.Exp`, `math.Sqrt` and the constant `math.Ln2`.  Theorems assume of
them only properties the real functions satisfy. -/
structure FloatOracle where
  exp : ℚ → ℚ
  sqrt : ℚ → ℚ
  ln2 : ℚ

/-- A concrete oracle (`exp` and `sqrt` constantly `1`) used for closed
evaluations in scenarios whose outcome is oracle-independent; it satisfies
`exp 0 = 1`, `∀ x, 0 < exp x` and `0 < sqrt 2`, the only properties of
`math.Exp`/`math.Sqrt` any theorem below relies on. -/
def oracleOne : FloatOracle where
  exp := fun _ => 1
  sqrt := fun _ => 1
  ln2 := 7/10

/-- Go `math.Round` as an integer: nearest, half away from zero. -/
def mathRoundZ (x : ℚ) : ℤ :=
  if x < 0 then -⌊-x + 1/2⌋ else ⌊x + 1/2⌋

/-- Go `math.Round`: nearest integer, half away from zero. -/
def mathRound (x : ℚ) : ℚ := ((mathRoundZ x : ℤ) : ℚ)

/-- Go `math.Ceil`. -/
def mathCeil (x : ℚ) : ℚ := ((⌈x⌉ : ℤ) : ℚ)

/-- Go `math.Floor`. -/
def mathFloor (x : ℚ) : ℚ := ((⌊x⌋ : ℤ) : ℚ)

/-- Go `math.Abs`. -/
def mathAbs (x : ℚ) : ℚ := if x < 0 then -x else x

/-- Go `math.Min`. -/
def mathMin (x y : ℚ) : ℚ := if x < y then x else y

/-- Go `math.Max`. -/
def mathMax (x y : ℚ) : ℚ := if x < y then y else x

/-- Sum of a rational-valued field over a record list (the Go loops sum
into a `float64` accumulator). -/
def sumBy (f : DailyRecord → ℚ) : List DailyRecord → ℚ
  | [] => 0
  | r :: rest => f r + sumBy f rest

namespace V1

/-!  `backend/internal/services/prediction_service.go` -/

/-- A record paired with its similarity score and weight (`SimilarRecord`). -/
structure SimilarRecord where
  record : DailyRecord
  similarity : ℚ
  weight : ℚ
deriving DecidableEq

/-- `predictWithDefaults`: the documented default formula — base 8.0
minutes, +0.3 per shower minute, −0.1 per degree, clamped to a minimum of
2.0 minutes and rounded to one decimal place. -/
def predictWithDefaults (req : PredictionRequest) : ℚ :=
  let heatingTime := 8 + req.duration * (3/10) + req.temperature * (-(1/10))
  let heatingTime := if heatingTime < 2 then 2 else heatingTime
  mathRound (heatingTime * 10) / 10

/-- The accumulator of `calculateFrequencyWeight`'s loop:
(similarCount, totalSimilarity) over all records within the ±2°C / ±3 min
window of the query. -/
def freqAcc (req : PredictionRequest) : List DailyRecord → ℚ × ℚ
  | [] => (0, 0)
  | record :: rest =>
    let acc := freqAcc req rest
    let tempDiff := mathAbs (record.averageTemperature - req.temperature)
    let durationDiff := mathAbs (record.showerDuration - req.duration)
    if tempDiff ≤ 2 ∧ durationDiff ≤ 3 then
      let tempSimilarity := 1 - tempDiff / 2
      let durationSimilarity := 1 - durationDiff / 3
      (acc.1 + 1, acc.2 + (tempSimilarity + durationSimilarity) / 2)
    else acc

/-- `calculateFrequencyWeight`: higher weight when many records share the
query's coarse similarity window. -/
def calculateFrequencyWeight (req : PredictionRequest) (allRecords : List DailyRecord)
    (_currentRecord : DailyRecord) : ℚ :=
  let similarCount := (freqAcc req allRecords).1
  let totalSimilarity := (freqAcc req allRecords).2
  if 0 < similarCount then
    let countFactor := similarCount / (allRecords.length : ℚ)
    let avgSimilarity := totalSimilarity / similarCount
    1 + countFactor * avgSimilarity
  else 1

/-- `findSimilarRecords`: records within ±2°C and ±3 minutes of the query,
weighted by similarity, a stepped recency weight (2× within a week, 1.5×
within a month) and the frequency weight. -/
def findSimilarRecords (now : ℚ) (req : PredictionRequest)
    (records : List DailyRecord) : List SimilarRecord :=
  go records
where
  go : List DailyRecord → List SimilarRecord
  | [] => []
  | record :: rest =>
    let tempDiff := mathAbs (record.averageTemperature - req.temperature)
    let durationDiff := mathAbs (record.showerDuration - req.duration)
    if tempDiff > 2 ∨ durationDiff > 3 then go rest
    else
      let tempSimilarity := 1 - tempDiff / 2
      let durationSimilarity := 1 - durationDiff / 3
      let overallSimilarity := (tempSimilarity + durationSimilarity) / 2
      let daysSince := now - record.date
      let recencyWeight : ℚ := if daysSince ≤ 7 then 2 else if daysSince ≤ 30 then 3/2 else 1
      let frequencyWeight := calculateFrequencyWeight req records record
      { record := record, similarity := overallSimilarity,
        weight := overallSimilarity * recencyWeight * frequencyWeight } :: go rest

/-- The subsequent attempts collected by `calculatePerfectScoreDecay`:
records dated after the perfect record whose heating time is within ±0.2
minutes of it. -/
def subsequentAttempts (perfectRecord : DailyRecord) :
    List SimilarRecord → List DailyRecord
  | [] => []
  | similarRecord :: rest =>
    let record := similarRecord.record
    if perfectRecord.date < record.date ∧
        mathAbs (record.heatingTime - perfectRecord.heatingTime) ≤ 2/10 then
      record :: subsequentAttempts perfectRecord rest
    else subsequentAttempts perfectRecord rest

/-- `calculatePerfectScoreDecay`: reduce the weight of a perfect score that
at least two later attempts of (nearly) the same heating time contradicted,
with the decay factor kept within [0.1, 1.0]. -/
def calculatePerfectScoreDecay (perfectRecord : DailyRecord)
    (allSimilarRecords : List SimilarRecord) : ℚ :=
  let attempts := subsequentAttempts perfectRecord allSimilarRecords
  if attempts.length = 0 then 1
  else
    let avgSatisfaction := sumBy (·.satisfaction) attempts / (attempts.length : ℚ)
    if avgSatisfaction < 50 ∧ 2 ≤ attempts.length then
      let satisfactionDrop := 50 - avgSatisfaction
      let attemptCount := (attempts.length : ℚ)
      let decayFactor := 1/2 - satisfactionDrop / 100 - attemptCount * (1/10)
      let decayFactor := if decayFactor < 1/10 then 1/10 else decayFactor
      let decayFactor := if decayFactor > 1 then 1 else decayFactor
      decayFactor
    else 1

/-- The satisfaction-based adjustment applied to one record's heating time
inside `calculatePrediction`: cold scores (below 50) add up to +4 minutes
scaled by `(50−s)/49`, hot scores (above 50) subtract up to −4 minutes
scaled by `(s−50)/50`. -/
def adjustment (record : DailyRecord) : ℚ :=
  if record.satisfaction < 50 then
    let coldnessFactor := (50 - record.satisfaction) / 49
    coldnessFactor * 4
  else if record.satisfaction > 50 then
    let hotnessFactor := (record.satisfaction - 50) / 50; -(hotnessFactor * 4)
  else 0

/-- The accumulator of `calculatePrediction`'s loop:
(totalWeightedTargetTime, totalWeight). -/
def predAcc (allSimilarRecords : List SimilarRecord) :
    List SimilarRecord → ℚ × ℚ
  | [] => (0, 0)
  | similarRecord :: rest =>
    let acc := predAcc allSimilarRecords rest
    let record := similarRecord.record
    let weight := similarRecord.weight
    let weight := if record.satisfaction = 50 then
        weight * calculatePerfectScoreDecay record allSimilarRecords
      else weight
    let targetTime := record.heatingTime + adjustment record
    (acc.1 + targetTime * weight, acc.2 + weight)

/-- `calculatePrediction`: weighted average of per-record target times,
clamped to [2, 30]; default formula when no similar record exists or the
total weight degenerates to zero. -/
def calculatePrediction (now : ℚ) (req : PredictionRequest)
    (records : List DailyRecord) : ℚ :=
  let similarRecords := findSimilarRecords now req records
  if similarRecords.length = 0 then predictWithDefaults req
  else
    let acc := predAcc similarRecords similarRecords
    let totalWeightedTargetTime := acc.1
    let totalWeight := acc.2
    if 0 < totalWeight then
      let finalPrediction := totalWeightedTargetTime / totalWeight
      if finalPrediction < 2 then 2
      else if finalPrediction > 30 then 30
      else finalPrediction
    else predictWithDefaults req

/-- `PredictHeatingTime` with the store fetch already performed: the
default formula when there is no history, otherwise the similarity-based
estimate rounded to one decimal place. -/
def PredictHeatingTime (now : ℚ) (records : List DailyRecord)
    (req : PredictionRequest) : ℚ :=
  if records.length = 0 then predictWithDefaults req
  else mathRound (calculatePrediction now req records * 10) / 10

end V1

namespace V1H

/-!  The hybrid user/global revision of the v1 prediction service (the
repository file defining `getCombinedPrediction`, `isStuckInPattern`,
`handleStuckPattern`, `findWeightedSuccessAnchors`, ...). -/

/-- `predictWithDefaults` of this revision: base 12.0 minutes, +0.4 per
shower minute, −0.15 per degree, minimum 5.0, rounded to whole minutes. -/
def predictWithDefaults (req : PredictionRequest) : ℚ :=
  let heatingTime := 12 + req.duration * (4/10) + req.temperature * (-(15/100))
  let heatingTime := if heatingTime < 5 then 5 else heatingTime
  mathRound heatingTime

/-- The filter loop of `getClusteredGlobalRecords`. -/
def clusterFilter (isLongShower isHotWeather isColdWeather : Bool) :
    List DailyRecord → List DailyRecord
  | [] => []
  | record :: rest =>
    let keep :=
      (!(isLongShower && decide (record.showerDuration ≤ 15))) &&
      (!(!isLongShower && decide (15 < record.showerDuration))) &&
      (!(isHotWeather && decide (record.averageTemperature ≤ 20))) &&
      (!(isColdWeather && decide (10 ≤ record.averageTemperature)))
    if keep then record :: clusterFilter isLongShower isHotWeather isColdWeather rest
    else clusterFilter isLongShower isHotWeather isColdWeather rest

/-- `getClusteredGlobalRecords`: keep global records matching the request's
archetype (long/short shower, hot/cold weather); fall back to all global
records when fewer than 10 match. -/
def getClusteredGlobalRecords (req : PredictionRequest)
    (globalRecords : List DailyRecord) : List DailyRecord :=
  let isLongShower := decide (15 < req.duration)
  let isHotWeather := decide (20 < req.temperature)
  let isColdWeather := decide (req.temperature < 10)
  let clusteredRecords := clusterFilter isLongShower isHotWeather isColdWeather globalRecords
  if clusteredRecords.length < 10 then globalRecords else clusteredRecords

/-- The counting loop of `calculateUserWeight`: user records within the
±2°C / ±3 min window of the query. -/
def relevantCount (req : PredictionRequest) : List DailyRecord → ℚ
  | [] => 0
  | record :: rest =>
    let tempDiff := mathAbs (record.averageTemperature - req.temperature)
    let durationDiff := mathAbs (record.showerDuration - req.duration)
    (if tempDiff ≤ 2 ∧ durationDiff ≤ 3 then 1 else 0) + relevantCount req rest

/-- `calculateUserWeight`: a saturating function of the relevant-record
count, `min(1, relevantCount / 10)`. -/
def calculateUserWeight (req : PredictionRequest)
    (userRecords : List DailyRecord) : ℚ :=
  mathMin 1 (relevantCount req userRecords / 10)

/-- `calculateDynamicLearningRate`: higher for younger models and for
feedback far from the perfect score, clamped to [0.2, 2.0]. -/
def calculateDynamicLearningRate (satisfaction : ℚ) (recordCount : ℕ) : ℚ :=
  let confidenceFactor := 1 - mathMin 1 ((recordCount : ℚ) / 30) * (7/10)
  let satisfactionFactor := 1 + mathAbs (satisfaction - 50) / 50
  let learningRate := confidenceFactor * satisfactionFactor
  mathMax (2/10) (mathMin learningRate 2)

/-- `getRecentRecords`: the last `count` entries of the record slice. -/
def getRecentRecords (records : List DailyRecord) (count : ℕ) : List DailyRecord :=
  if records.length ≤ count then records else records.drop (records.length - count)

/-- The state of `detectExtremeFeedbackPattern`'s scan: consecutive cold
and hot counters and the boosts found so far. -/
structure EFPState where
  cold : ℕ
  hot : ℕ
  coldBoost : ℚ
  hotBoost : ℚ

/-- One step of `detectExtremeFeedbackPattern`'s scan. -/
def efpStep (st : EFPState) (record : DailyRecord) : EFPState :=
  let st :=
    if record.satisfaction < 30 then { st with cold := st.cold + 1, hot := 0 }
    else if 70 < record.satisfaction then { st with hot := st.hot + 1, cold := 0 }
    else { st with cold := 0, hot := 0 }
  let st := if 3 ≤ st.cold then { st with coldBoost := 3/2 + (st.cold : ℚ) * (2/10) } else st
  if 3 ≤ st.hot then { st with hotBoost := 3/2 + (st.hot : ℚ) * (2/10) } else st

/-- `detectExtremeFeedbackPattern`: scan the records from the end of the
slice towards its start; three or more consecutive very-cold (<30) or
very-hot (>70) scores raise the corresponding boost. Returns
(coldBoost, hotBoost). -/
def detectExtremeFeedbackPattern (records : List DailyRecord) : ℚ × ℚ :=
  let st := records.reverse.foldl efpStep ⟨0, 0, 1, 1⟩
  (st.coldBoost, st.hotBoost)

/-- The pairwise loop of `calculateAdjustmentAggressiveness`:
(totalAdjustmentPercent, adjustmentCount) over consecutive record pairs. -/
def aggAcc : List DailyRecord → ℚ × ℚ
  | [] => (0, 0)
  | [_] => (0, 0)
  | previous :: current :: rest =>
    let acc := aggAcc (current :: rest)
    if 0 < previous.heatingTime then
      (acc.1 + mathAbs (current.heatingTime - previous.heatingTime) / previous.heatingTime,
       acc.2 + 1)
    else acc

/-- `calculateAdjustmentAggressiveness`: mean relative heating-time change
between consecutive records. -/
def calculateAdjustmentAggressiveness (records : List DailyRecord) : ℚ :=
  if records.length < 2 then 0
  else
    let acc := aggAcc records
    if 0 < acc.2 then acc.1 / acc.2 else 0

/-- `analyzeColdProgression`: a boost of 3.0/2.0/2.5 when cold feedback
persists without aggressive adjustment. -/
def analyzeColdProgression (recentRecords : List DailyRecord)
    (currentSatisfaction : ℚ) : ℚ :=
  if currentSatisfaction < 40 then
    let lowSatisfactionCount :=
      (recentRecords.filter (fun record => decide (record.satisfaction < 40))).length
    if 2 ≤ lowSatisfactionCount then
      let adjustmentAggressiveness := calculateAdjustmentAggressiveness recentRecords
      if adjustmentAggressiveness < 3/10 then 3
      else if adjustmentAggressiveness < 5/10 then 2
      else if currentSatisfaction < 30 then 5/2 else 1
    else if currentSatisfaction < 30 then 5/2 else 1
  else 1

/-- `analyzeHotProgression`: the mirror of `analyzeColdProgression` for
persistent hot feedback. -/
def analyzeHotProgression (recentRecords : List DailyRecord)
    (currentSatisfaction : ℚ) : ℚ :=
  if 60 < currentSatisfaction then
    let highSatisfactionCount :=
      (recentRecords.filter (fun record => decide (60 < record.satisfaction))).length
    if 2 ≤ highSatisfactionCount then
      let adjustmentAggressiveness := calculateAdjustmentAggressiveness recentRecords
      if adjustmentAggressiveness < 3/10 then 3
      else if adjustmentAggressiveness < 5/10 then 2
      else if 70 < currentSatisfaction then 5/2 else 1
    else if 70 < currentSatisfaction then 5/2 else 1
  else 1

/-- `calculateContextualBoost`: analyze the last three records for a
persistently one-sided progression. -/
def calculateContextualBoost (records : List DailyRecord)
    (currentSatisfaction : ℚ) (isCold : Bool) : ℚ :=
  if records.length < 2 then 1
  else
    let recentRecords := getRecentRecords records 3
    if recentRecords.length < 2 then 1
    else if isCold then analyzeColdProgression recentRecords currentSatisfaction
    else analyzeHotProgression recentRecords currentSatisfaction

/-- `countConsecutiveHotFeedback`: length of the run of satisfaction > 50
records at the end of the slice. -/
def countConsecutiveHotFeedback (records : List DailyRecord) : ℕ :=
  go records.reverse
where
  go : List DailyRecord → ℕ
  | [] => 0
  | record :: rest => if 50 < record.satisfaction then go rest + 1 else 0

/-- A successful record with its weight (`WeightedSuccessAnchor`). -/
structure WeightedSuccessAnchor where
  record : DailyRecord
  weight : ℚ

/-- The backwards scan of `findWeightedSuccessAnchors`, collecting at most
three records with satisfaction > 55, weighted by recency and by how far
above 55 the satisfaction is. -/
def fwsaGo (F : FloatOracle) (now : ℚ) :
    List DailyRecord → List WeightedSuccessAnchor → List WeightedSuccessAnchor
  | [], anchors => anchors
  | record :: rest, anchors =>
    if 55 < record.satisfaction then
      let daysSince := now - record.date
      let recencyWeight := F.exp (-(1/10) * daysSince)
      let satisfactionWeight := (record.satisfaction - 55) / 45
      let totalWeight := recencyWeight * (1 + satisfactionWeight)
      let anchors := anchors ++ [{ record := record, weight := totalWeight }]
      if 3 ≤ anchors.length then anchors else fwsaGo F now rest anchors
    else fwsaGo F now rest anchors

/-- `findWeightedSuccessAnchors`: up to three recent successes
(satisfaction > 55), scanned from the end of the slice. -/
def findWeightedSuccessAnchors (F : FloatOracle) (now : ℚ)
    (records : List DailyRecord) : List WeightedSuccessAnchor :=
  fwsaGo F now records.reverse []

/-- `applyGraduatedAdjustment`: reduce a hot record's heating time by a
percentage graduated in its satisfaction. -/
def applyGraduatedAdjustment (record : DailyRecord) : ℚ :=
  let satisfaction := record.satisfaction
  let heatingTime := record.heatingTime
  if 85 ≤ satisfaction then heatingTime * (75/100)
  else if 80 ≤ satisfaction then heatingTime * (80/100)
  else if 75 ≤ satisfaction then heatingTime * (83/100)
  else if 65 ≤ satisfaction then heatingTime * (87/100)
  else if 60 ≤ satisfaction then heatingTime * (92/100)
  else if 55 ≤ satisfaction then heatingTime * (97/100)
  else heatingTime

/-- The accumulating loop of `applySuccessAnchorLogic`:
(totalWeightedTime, totalWeight) over the anchors. -/
def anchorAcc : List WeightedSuccessAnchor → ℚ × ℚ
  | [] => (0, 0)
  | anchor :: rest =>
    let acc := anchorAcc rest
    (acc.1 + applyGraduatedAdjustment anchor.record * anchor.weight, acc.2 + anchor.weight)

/-- `applySuccessAnchorLogic`: blend the anchor-based estimate into the
calculated prediction, the anchors' influence capped at 70%. -/
def applySuccessAnchorLogic (calculatedPrediction : ℚ)
    (successAnchors : List WeightedSuccessAnchor) : ℚ :=
  if successAnchors.length = 0 then calculatedPrediction
  else
    let acc := anchorAcc successAnchors
    if 0 < acc.2 then
      let anchorBasedPrediction := acc.1 / acc.2
      let anchorInfluence := mathMin (7/10) acc.2
      let calculatedInfluence := 1 - anchorInfluence
      anchorBasedPrediction * anchorInfluence + calculatedPrediction * calculatedInfluence
    else calculatedPrediction

/-- `isStuckInPattern`: the last four records have heating-time variance
below 4.0 and at least three satisfaction scores below 50. -/
def isStuckInPattern (records : List DailyRecord) : Bool :=
  if records.length < 4 then false
  else
    let recentRecords := getRecentRecords records 4
    let n := (recentRecords.length : ℚ)
    let avgHeatingTime := sumBy (·.heatingTime) recentRecords / n
    let heatingTimeVariance :=
      sumBy (fun record => (record.heatingTime - avgHeatingTime) ^ 2) recentRecords / n
    let satisfactionBelowThreshold :=
      (recentRecords.filter (fun record => decide (record.satisfaction < 50))).length
    decide (heatingTimeVariance < 4 ∧ 3 ≤ satisfactionBelowThreshold)

/-- `handleStuckPattern`: a strategic jump from the recent mean heating
time, scaled by how far the recent mean satisfaction is from perfect. -/
def handleStuckPattern (records : List DailyRecord) : ℚ :=
  let recentRecords := getRecentRecords records 4
  let n := (recentRecords.length : ℚ)
  let avgHeatingTime := sumBy (·.heatingTime) recentRecords / n
  let avgSatisfaction := sumBy (·.satisfaction) recentRecords / n
  if avgSatisfaction < 30 then avgHeatingTime * (3/2)
  else if avgSatisfaction < 45 then avgHeatingTime * (13/10)
  else if 70 < avgSatisfaction then avgHeatingTime * (75/100)
  else if 55 < avgSatisfaction then avgHeatingTime * (85/100)
  else avgHeatingTime * (12/10)

/-- A record paired with its similarity score and weight (`SimilarRecord`
of this revision). -/
structure SimilarRecord where
  record : DailyRecord
  similarity : ℚ
  weight : ℚ

/-- `calculateFrequencyWeight` of this revision (same formula as `V1`). -/
def calculateFrequencyWeight (req : PredictionRequest) (allRecords : List DailyRecord)
    (_currentRecord : DailyRecord) : ℚ :=
  let similarCount := (V1.freqAcc req allRecords).1
  let totalSimilarity := (V1.freqAcc req allRecords).2
  if 0 < similarCount then
    let countFactor := similarCount / (allRecords.length : ℚ)
    let avgSimilarity := totalSimilarity / similarCount
    1 + countFactor * avgSimilarity
  else 1

/-- `findSimilarRecords` of this revision: box window as in `V1` but with a
continuous recency decay `exp(−0.023·daysSince)`. -/
def findSimilarRecords (F : FloatOracle) (now : ℚ) (req : PredictionRequest)
    (records : List DailyRecord) : List SimilarRecord :=
  go records
where
  go : List DailyRecord → List SimilarRecord
  | [] => []
  | record :: rest =>
    let tempDiff := mathAbs (record.averageTemperature - req.temperature)
    let durationDiff := mathAbs (record.showerDuration - req.duration)
    if tempDiff > 2 ∨ durationDiff > 3 then go rest
    else
      let tempSimilarity := 1 - tempDiff / 2
      let durationSimilarity := 1 - durationDiff / 3
      let overallSimilarity := (tempSimilarity + durationSimilarity) / 2
      let daysSince := now - record.date
      let recencyWeight := F.exp (-(23/1000) * daysSince)
      let frequencyWeight := calculateFrequencyWeight req records record
      { record := record, similarity := overallSimilarity,
        weight := overallSimilarity * recencyWeight * frequencyWeight } :: go rest

/-- The subsequent attempts collected by this revision's
`calculatePerfectScoreDecay`. -/
def subsequentAttempts (perfectRecord : DailyRecord) :
    List SimilarRecord → List DailyRecord
  | [] => []
  | similarRecord :: rest =>
    let record := similarRecord.record
    if perfectRecord.date < record.date ∧
        mathAbs (record.heatingTime - perfectRecord.heatingTime) ≤ 2/10 then
      record :: subsequentAttempts perfectRecord rest
    else subsequentAttempts perfectRecord rest

/-- `calculatePerfectScoreDecay` of this revision (same logic as `V1`). -/
def calculatePerfectScoreDecay (perfectRecord : DailyRecord)
    (allSimilarRecords : List SimilarRecord) : ℚ :=
  let attempts := subsequentAttempts perfectRecord allSimilarRecords
  if attempts.length = 0 then 1
  else
    let avgSatisfaction := sumBy (·.satisfaction) attempts / (attempts.length : ℚ)
    if avgSatisfaction < 50 ∧ 2 ≤ attempts.length then
      let satisfactionDrop := 50 - avgSatisfaction
      let attemptCount := (attempts.length : ℚ)
      let decayFactor := 1/2 - satisfactionDrop / 100 - attemptCount * (1/10)
      if decayFactor < 1/10 then 1/10
      else if decayFactor > 1 then 1
      else decayFactor
    else 1

/-- The per-record satisfaction adjustment of this revision's
`calculatePrediction` loop (the body of its `record.Satisfaction != 50`
branch): quadratic in the normalized distance from perfect, scaled by the
dynamic learning rate, the extreme-feedback boosts, the contextual boost,
a dampened overshoot factor, and extra dampening of hot feedback. -/
def loopAdjustment (records : List DailyRecord) (totalRecordCount similarCount : ℕ)
    (record : DailyRecord) : ℚ :=
  if record.satisfaction = 50 then 0
  else
    let x := record.satisfaction - 50
    let normalizedX := x / 50
    let quadraticFactor := 2 * mathAbs normalizedX ^ 2
    let baseAdjustmentPercent := calculateDynamicLearningRate record.satisfaction totalRecordCount
    let boosts := detectExtremeFeedbackPattern records
    let coldBoost := boosts.1
    let hotBoost := boosts.2
    let contextualBoost := calculateContextualBoost records record.satisfaction (decide (x < 0))
    let baseOvershoot := 1 + mathAbs normalizedX * (4/10)
    let baseOvershoot := if 50 < record.satisfaction then 1 else baseOvershoot
    let dampeningFactor := 1 / (1 + (similarCount : ℚ) / 5)
    let effectiveOvershoot := 1 + (baseOvershoot - 1) * dampeningFactor
    let effectiveOvershoot := if x < 0 then effectiveOvershoot * (11/10) else effectiveOvershoot
    let overshootFactor := mathMin effectiveOvershoot (14/10)
    let adjustment :=
      if x < 0 then
        quadraticFactor * (record.heatingTime * baseAdjustmentPercent) * coldBoost * contextualBoost
      else
        let adjustment :=
          -(quadraticFactor * (record.heatingTime * baseAdjustmentPercent)) * hotBoost * contextualBoost
        let consecutiveHotCount := countConsecutiveHotFeedback records
        if 2 ≤ consecutiveHotCount then
          adjustment * (4/10 + (2/10) * (consecutiveHotCount : ℚ))
        else adjustment * (6/10)
    adjustment * overshootFactor

/-- The accumulator of this revision's `calculatePrediction` loop:
(totalWeightedTargetTime, totalWeight). -/
def predAcc (records : List DailyRecord) (totalRecordCount : ℕ)
    (allSimilarRecords : List SimilarRecord) :
    List SimilarRecord → ℚ × ℚ
  | [] => (0, 0)
  | similarRecord :: rest =>
    let acc := predAcc records totalRecordCount allSimilarRecords rest
    let record := similarRecord.record
    let weight := similarRecord.weight
    let weight := if record.satisfaction = 50 then
        weight * calculatePerfectScoreDecay record allSimilarRecords
      else weight
    let targetTime := record.heatingTime +
      loopAdjustment records totalRecordCount allSimilarRecords.length record
    (acc.1 + targetTime * weight, acc.2 + weight)

/-- `calculatePrediction` of this revision: stuck-pattern override, then a
weighted average of per-record target times with success-anchor blending,
clamped to [5, 120]. -/
def calculatePrediction (F : FloatOracle) (now : ℚ) (req : PredictionRequest)
    (records : List DailyRecord) (totalRecordCount : ℕ) : ℚ :=
  let similarRecords := findSimilarRecords F now req records
  if similarRecords.length = 0 then predictWithDefaults req
  else if isStuckInPattern records then handleStuckPattern records
  else
    let successAnchors := findWeightedSuccessAnchors F now records
    let acc := predAcc records totalRecordCount similarRecords similarRecords
    if 0 < acc.2 then
      let finalPrediction := acc.1 / acc.2
      let finalPrediction :=
        if 0 < successAnchors.length then applySuccessAnchorLogic finalPrediction successAnchors
        else finalPrediction
      if finalPrediction < 5 then 5
      else if finalPrediction > 120 then 120
      else finalPrediction
    else predictWithDefaults req

/-- `calculatePredictionFromRecords`: default formula on an empty record
set, otherwise `calculatePrediction`. -/
def calculatePredictionFromRecords (F : FloatOracle) (now : ℚ)
    (req : PredictionRequest) (records : List DailyRecord)
    (totalRecordCount : ℕ) : ℚ :=
  if records.length = 0 then predictWithDefaults req
  else calculatePrediction F now req records totalRecordCount

/-- `getCombinedPrediction`: blend the user-specific and (clustered) global
estimates by the user weight, with bounds [5, 120] on the blended value. -/
def getCombinedPrediction (F : FloatOracle) (now : ℚ) (req : PredictionRequest)
    (userRecords globalRecords : List DailyRecord) : ℚ :=
  let userWeight := calculateUserWeight req userRecords
  let globalWeight := 1 - userWeight
  let userPrediction :=
    if 0 < userWeight then
      calculatePredictionFromRecords F now req userRecords userRecords.length
    else 0
  let clusteredGlobalRecords := getClusteredGlobalRecords req globalRecords
  let globalPrediction :=
    calculatePredictionFromRecords F now req clusteredGlobalRecords clusteredGlobalRecords.length
  if userWeight = 0 then globalPrediction
  else if globalRecords.length = 0 then
    if 0 < userWeight then userPrediction else predictWithDefaults req
  else
    let finalPrediction := userPrediction * userWeight + globalPrediction * globalWeight
    if finalPrediction < 5 then 5
    else if finalPrediction > 120 then 120
    else finalPrediction

end V1H

namespace V2

/-!  `backend/internal/services/prediction_service_v2.go` -/

/-- A record wrapped with its source flag, weight and anchor flag
(`recWrap`; the Go field `rec` is named `record` here because Lean
reserves `recWrap.rec` for the recursor).  Go's `cellKey` field caches
`freqCellKey` of the record as the string `fmt.Sprintf("%d|%d", d, t)`;
the embedding computes `freqCellKey` — the integer pair `(d, t)`, in
bijection with that string — directly wherever the key is read. -/
structure recWrap where
  record : DailyRecord
  isUser : Bool
  weight : ℚ := 0
  anchor : Bool := false
deriving DecidableEq

/-- `PredictionConfigV2`. -/
structure PredictionConfigV2 where
  SigmaDuration : ℚ
  SigmaTemp : ℚ
  K : ℕ
  MinK : ℕ
  AnchorEpsilon : ℚ
  AnchorBoost : ℚ
  AnchorBlend : ℚ
  RecencyHalfLifeDays : ℚ
  UserBoost : ℚ
  StepCapFraction : ℚ
  MinMinutes : ℚ
  MaxMinutes : ℚ
  NeverCold : Bool

/-- The defaults of `NewPredictionServiceV2` (no overriding config). -/
def defaultCfg : PredictionConfigV2 where
  SigmaDuration := 6
  SigmaTemp := 4
  K := 60
  MinK := 8
  AnchorEpsilon := 5
  AnchorBoost := 16/10
  AnchorBlend := 35/100
  RecencyHalfLifeDays := 10
  UserBoost := 14/10
  StepCapFraction := 35/100
  MinMinutes := 5
  MaxMinutes := 120
  NeverCold := true

/-- `gaussian`: `exp(−½(δ/σ)²)`, and `0` for non-positive `σ`. -/
def gaussian (F : FloatOracle) (delta sigma : ℚ) : ℚ :=
  if sigma ≤ 0 then 0
  else
    let x := delta / sigma
    F.exp (-(1/2) * x * x)

/-- `expHalfLife`: `exp(−ln2·days/halfLife)`, and `1` for non-positive
half-life. -/
def expHalfLife (F : FloatOracle) (days halfLife : ℚ) : ℚ :=
  if halfLife ≤ 0 then 1
  else F.exp (-F.ln2 * days / halfLife)

/-- `clamp`. -/
def clamp (x lo hi : ℚ) : ℚ :=
  if x < lo then lo
  else if x > hi then hi
  else x

/-- `freqCellKey`: the coarse (duration, temperature) cell of a record,
both rounded to the nearest integer. -/
def freqCellKey (r : DailyRecord) : ℤ × ℤ :=
  (mathRoundZ r.showerDuration, mathRoundZ r.averageTemperature)

/-- Wrap the fetched user and global records with their source flag (step
2 of `Predict`). -/
def allWraps (userRecords globalRecords : List DailyRecord) : List recWrap :=
  userRecords.map (fun r => { record := r, isUser := true }) ++
    globalRecords.map (fun r => { record := r, isUser := false })

/-- The frequency count of a cell among the wrapped records (step 3 of
`Predict`, the `cellCounts` map). -/
def cellCount (all : List recWrap) (key : ℤ × ℤ) : ℕ :=
  go all
where
  go : List recWrap → ℕ
  | [] => 0
  | w :: rest => (if freqCellKey w.record = key then 1 else 0) + go rest

/-- Step 4 of `Predict` for one record: Gaussian distance on duration and
temperature, recency decay, anchor boost, reliability down-weighting, cell
frequency dampening and source boost. -/
def weighRecord (F : FloatOracle) (now : ℚ) (cfg : PredictionConfigV2)
    (req : PredictionRequest) (cellCnt : ℕ) (r : recWrap) : recWrap :=
  let wDur := gaussian F (req.duration - r.record.showerDuration) cfg.SigmaDuration
  let wTmp := gaussian F (req.temperature - r.record.averageTemperature) cfg.SigmaTemp
  let w := wDur * wTmp
  let days := mathAbs (now - r.record.date)
  let w := w * expHalfLife F days cfg.RecencyHalfLifeDays
  let isAnchor := mathAbs (r.record.satisfaction - 50) ≤ cfg.AnchorEpsilon
  let w := if isAnchor then w * cfg.AnchorBoost else w
  let w := w * gaussian F (r.record.satisfaction - 50) 22
  let w := if 1 < cellCnt then w * (1 / F.sqrt (cellCnt : ℚ)) else w
  let w := if r.isUser then w * cfg.UserBoost else w
  { r with weight := w, anchor := decide isAnchor }

/-- Steps 2–4 of `Predict`: all wrapped records with their weights. -/
def weighted (F : FloatOracle) (now : ℚ) (cfg : PredictionConfigV2)
    (req : PredictionRequest) (userRecords globalRecords : List DailyRecord) :
    List recWrap :=
  let all := allWraps userRecords globalRecords
  all.map (fun r => weighRecord F now cfg req (cellCount all (freqCellKey r.record)) r)

/-- Insert a record into a weight-descending list (the comparator of
`sort.Slice(all, func(i, j) { return all[i].weight > all[j].weight })`;
Go's unstable sort leaves the order of equal weights unspecified, the
embedding keeps the original order of equal weights). -/
def insertByWeight (x : recWrap) : List recWrap → List recWrap
  | [] => [x]
  | y :: ys => if y.weight < x.weight then x :: y :: ys else y :: insertByWeight x ys

/-- Sort the wrapped records by descending weight. -/
def sortByWeight (l : List recWrap) : List recWrap :=
  l.foldr insertByWeight []

/-- Step 5 of `Predict`: the top-K records by weight (at least `MinK`, at
most all of them). -/
def topK (cfg : PredictionConfigV2) (all : List recWrap) : List recWrap :=
  let k := if cfg.K < cfg.MinK then cfg.MinK else cfg.K
  let k := if all.length < k then all.length else k
  (sortByWeight all).take k

/-- The accumulator of `weightedMean`'s loop: (sum, totalW) over records
with positive weight. -/
def wmAcc : List recWrap → ℚ × ℚ
  | [] => (0, 0)
  | r :: rest =>
    let acc := wmAcc rest
    if r.weight ≤ 0 then acc
    else (acc.1 + r.record.heatingTime * r.weight, acc.2 + r.weight)

/-- `weightedMean`: weighted mean of the raw heating times, falling back
to 30.0 when the total weight is zero. -/
def weightedMean (recs : List recWrap) : ℚ :=
  let acc := wmAcc recs
  if acc.2 = 0 then 30 else acc.1 / acc.2

/-- The accumulator of `weightedMeanAnchors`: (sum, totalW) over anchor
records with positive weight. -/
def wmaAcc : List recWrap → ℚ × ℚ
  | [] => (0, 0)
  | r :: rest =>
    let acc := wmaAcc rest
    if !r.anchor || r.weight ≤ 0 then acc
    else (acc.1 + r.record.heatingTime * r.weight, acc.2 + r.weight)

/-- `weightedMeanAnchors`: (mean, weightSum) over the anchors, `(0, 0)`
when no anchor carries weight. -/
def weightedMeanAnchors (recs : List recWrap) : ℚ × ℚ :=
  let acc := wmaAcc recs
  if acc.2 = 0 then (0, 0) else (acc.1 / acc.2, acc.2)

/-- `sumWeights`. -/
def sumWeights : List recWrap → ℚ
  | [] => 0
  | r :: rest => r.weight + sumWeights rest

/-- `latestUserRecord`: the user record with the strictly latest date
(first one wins ties), `none` on an empty history. -/
def latestUserRecord : List DailyRecord → Option DailyRecord
  | [] => none
  | r :: rs => some (rs.foldl (fun latest x => if latest.date < x.date then x else latest) r)

/-- Step 6 of `Predict`: the weighted estimate over the top-K records,
blended towards the anchor-only estimate in proportion to the anchors'
share of the total weight. -/
def blendedEstimate (F : FloatOracle) (now : ℚ) (cfg : PredictionConfigV2)
    (req : PredictionRequest) (userRecords globalRecords : List DailyRecord) : ℚ :=
  let top := topK cfg (weighted F now cfg req userRecords globalRecords)
  let estAll := weightedMean top
  let anchors := weightedMeanAnchors top
  if 0 < anchors.2 then
    let alpha := cfg.AnchorBlend * mathMin 1 (anchors.2 / (sumWeights top + 1/1000000000))
    (1 - alpha) * estAll + alpha * anchors.1
  else estAll

/-- Step 7 of `Predict`: clamp the estimate against the last user record's
heating time, within `± StepCapFraction`. -/
def stepClamped (F : FloatOracle) (now : ℚ) (cfg : PredictionConfigV2)
    (req : PredictionRequest) (userRecords globalRecords : List DailyRecord) : ℚ :=
  let estAll := blendedEstimate F now cfg req userRecords globalRecords
  match latestUserRecord userRecords with
  | none => estAll
  | some last =>
    let capFrac := cfg.StepCapFraction
    let minStep := last.heatingTime * (1 - capFrac)
    let maxStep := last.heatingTime * (1 + capFrac)
    clamp estAll minStep maxStep

/-- `Predict` with the store fetches already performed: the conservative
default of 30 minutes on an empty snapshot, otherwise the Gaussian-kNN
estimate, step-clamped, clamped to the absolute bounds and rounded (ceil
under `NeverCold`, else to the nearest minute). -/
def Predict (F : FloatOracle) (now : ℚ) (cfg : PredictionConfigV2)
    (req : PredictionRequest) (userRecords globalRecords : List DailyRecord) : ℚ :=
  if (allWraps userRecords globalRecords).length = 0 then
    let out : ℚ := 30
    let out := if cfg.NeverCold then mathCeil out else mathRound out
    clamp out cfg.MinMinutes cfg.MaxMinutes
  else
    let estAll := clamp (stepClamped F now cfg req userRecords globalRecords)
      cfg.MinMinutes cfg.MaxMinutes
    if cfg.NeverCold then mathCeil estAll else mathRound estAll

/-- `Predict` including the two store fetches (step 1): an error from
either fetch propagates to the caller unchanged and produces no numeric
prediction. -/
def PredictRun (ε : Type) (F : FloatOracle) (now : ℚ) (cfg : PredictionConfigV2)
    (req : PredictionRequest)
    (userFetch globalFetch : Except ε (List DailyRecord)) : Except ε ℚ :=
  match userFetch with
  | .error e => .error e
  | .ok userRecords =>
    match globalFetch with
    | .error e => .error e
    | .ok globalRecords => .ok (Predict F now cfg req userRecords globalRecords)

end V2

namespace V2T

/-!  The revision of the v2 prediction service whose weighted means run
over implied targets (`impliedTarget`, `weightedMeanTargets`,
`latestSimilarUserRecord`, `smartRound`, `lastUserFeedback`).  Its steps
2–5 (wrapping, weighting, top-K selection) are textually identical to
`prediction_service_v2.go`, so the `V2` definitions are reused for them;
its constructor defaults differ and are `defaultCfgT` below. -/

/-- The defaults of this revision's `NewPredictionServiceV2`
(`AnchorEpsilon` and `AnchorBoost` are not set and so are Go's zero
value). -/
def defaultCfgT : V2.PredictionConfigV2 where
  SigmaDuration := 4
  SigmaTemp := 3
  K := 25
  MinK := 6
  AnchorEpsilon := 0
  AnchorBoost := 0
  AnchorBlend := 35/100
  RecencyHalfLifeDays := 5
  UserBoost := 2
  StepCapFraction := 35/100
  MinMinutes := 5
  MaxMinutes := 120
  NeverCold := false

/-- `impliedTarget`: the heating time a record suggests in retrospect —
unchanged within ±1 of perfect satisfaction, graduated percentage cuts
when too hot, and a proportional increase with mild overshoot when too
cold. -/
def impliedTarget (r : DailyRecord) : ℚ :=
  let s := r.satisfaction
  let h := r.heatingTime
  if mathAbs (s - 50) ≤ 1 then h
  else if 50 < s then
    if 85 ≤ s then h * (75/100)
    else if 80 ≤ s then h * (80/100)
    else if 75 ≤ s then h * (83/100)
    else if 65 ≤ s then h * (87/100)
    else if 60 ≤ s then h * (92/100)
    else if 55 ≤ s then h * (97/100)
    else h * (99/100)
  else
    let coldSeverity := (50 - s) / 50
    let coldSeverity := if coldSeverity < 0 then 0 else coldSeverity
    let basePercent := 12/100 + (28/100) * coldSeverity
    let overshoot := 1 + (10/100) * coldSeverity
    let factor := 1 + basePercent * overshoot
    h * factor

/-- The accumulator of `weightedMeanTargets`: (sum, totalW) over records
with positive weight, summing implied targets. -/
def wmtAcc : List V2.recWrap → ℚ × ℚ
  | [] => (0, 0)
  | r :: rest =>
    let acc := wmtAcc rest
    if r.weight ≤ 0 then acc
    else (acc.1 + impliedTarget r.record * r.weight, acc.2 + r.weight)

/-- `weightedMeanTargets`: weighted mean over implied targets instead of
raw heating times, falling back to 30.0 when the total weight is zero. -/
def weightedMeanTargets (recs : List V2.recWrap) : ℚ :=
  let acc := wmtAcc recs
  if acc.2 = 0 then 30 else acc.1 / acc.2

/-- The accumulator of `weightedMeanTargetsAnchors`. -/
def wmtaAcc : List V2.recWrap → ℚ × ℚ
  | [] => (0, 0)
  | r :: rest =>
    let acc := wmtaAcc rest
    if !r.anchor || r.weight ≤ 0 then acc
    else (acc.1 + impliedTarget r.record * r.weight, acc.2 + r.weight)

/-- `weightedMeanTargetsAnchors`: (mean, weightSum) of implied targets
over the anchors, `(0, 0)` when no anchor carries weight. -/
def weightedMeanTargetsAnchors (recs : List V2.recWrap) : ℚ × ℚ :=
  let acc := wmtaAcc recs
  if acc.2 = 0 then (0, 0) else (acc.1 / acc.2, acc.2)

/-- `latestSimilarUserRecord`: the latest user record within the given
duration/temperature deltas of the request (first one wins ties). -/
def latestSimilarUserRecord (userRecs : List DailyRecord)
    (req : PredictionRequest) (maxDeltaDur maxDeltaTemp : ℚ) : Option DailyRecord :=
  userRecs.foldl (fun latest r =>
    if mathAbs (r.showerDuration - req.duration) > maxDeltaDur then latest
    else if mathAbs (r.averageTemperature - req.temperature) > maxDeltaTemp then latest
    else match latest with
      | none => some r
      | some l => if l.date < r.date then some r else latest) none

/-- `smartRound`: floor when the user was recently hot and the fraction is
small, ceil when recently cold, otherwise round to nearest. -/
def smartRound (est lastSat : ℚ) : ℚ :=
  let frac := est - mathFloor est
  if 50 < lastSat ∧ frac ≤ 25/100 then mathFloor est
  else if lastSat < 50 then mathCeil est
  else mathRound est

/-- `lastUserFeedback`: the most recent satisfaction for the user, `none`
when the user has no records (the Go pair `(50, false)`). -/
def lastUserFeedback (userRecs : List DailyRecord) : Option ℚ :=
  (userRecs.foldl (fun latest r =>
    match latest with
    | none => some r
    | some l => if l.date < r.date then some r else latest) none).map (·.satisfaction)

/-- Step 6 of this revision's `Predict`: the weighted estimate over
implied targets, blended towards the anchor-only estimate. -/
def blendedEstimate (F : FloatOracle) (now : ℚ) (cfg : V2.PredictionConfigV2)
    (req : PredictionRequest) (userRecords globalRecords : List DailyRecord) : ℚ :=
  let top := V2.topK cfg (V2.weighted F now cfg req userRecords globalRecords)
  let estAll := weightedMeanTargets top
  let anchors := weightedMeanTargetsAnchors top
  if 0 < anchors.2 then
    let alpha := cfg.AnchorBlend * mathMin 1 (anchors.2 / (V2.sumWeights top + 1/1000000000))
    (1 - alpha) * estAll + alpha * anchors.1
  else estAll

/-- Step 7 of this revision's `Predict`: clamp against the latest
*similar* user record (within twice the kernel sigmas). -/
def stepClamped (F : FloatOracle) (now : ℚ) (cfg : V2.PredictionConfigV2)
    (req : PredictionRequest) (userRecords globalRecords : List DailyRecord) : ℚ :=
  let estAll := blendedEstimate F now cfg req userRecords globalRecords
  match latestSimilarUserRecord userRecords req (cfg.SigmaDuration * 2) (cfg.SigmaTemp * 2) with
  | none => estAll
  | some last =>
    let capFrac := cfg.StepCapFraction
    let minStep := last.heatingTime * (1 - capFrac)
    let maxStep := last.heatingTime * (1 + capFrac)
    V2.clamp estAll minStep maxStep

/-- This revision's `Predict` with the store fetches already performed:
conservative default 30 on an empty snapshot, otherwise the implied-target
Gaussian-kNN estimate, step-clamped, clamped to the absolute bounds and
smart-rounded against the user's last feedback. -/
def Predict (F : FloatOracle) (now : ℚ) (cfg : V2.PredictionConfigV2)
    (req : PredictionRequest) (userRecords globalRecords : List DailyRecord) : ℚ :=
  if (V2.allWraps userRecords globalRecords).length = 0 then
    let out : ℚ := 30
    let out := if cfg.NeverCold then mathCeil out else mathRound out
    V2.clamp out cfg.MinMinutes cfg.MaxMinutes
  else
    let estAll := V2.clamp (stepClamped F now cfg req userRecords globalRecords)
      cfg.MinMinutes cfg.MaxMinutes
    match lastUserFeedback userRecords with
    | some lastSat => smartRound estAll lastSat
    | none => mathRound estAll

end V2T

/-!  ## Concrete scenarios used by the claims' theorems -/

/-- The reference configuration with a chosen rounding policy. -/
def cfgRef (never : Bool) : V2.PredictionConfigV2 :=
  { V2.defaultCfg with NeverCold := never }

/-- Shift a record's timestamp (used to state clock-translation
invariance). -/
def shiftRecord (d : ℚ) (r : DailyRecord) : DailyRecord :=
  { r with date := r.date + d }

/-- A similar-record entry with its underlying record shifted. -/
def shiftSimilar (d : ℚ) (sr : V1.SimilarRecord) : V1.SimilarRecord :=
  { sr with record := shiftRecord d sr.record }

/-- A wrapped record with its underlying record shifted. -/
def shiftWrap (d : ℚ) (w : V2.recWrap) : V2.recWrap :=
  { w with record := shiftRecord d w.record }

/-- The example query of spec §8 (duration 15 min, temperature 22°C). -/
def qEx : PredictionRequest := ⟨15, 22⟩

/-- A second query used for the error-handling scenario. -/
def qC9 : PredictionRequest := ⟨12, 30⟩

/-- The §8 example observation: satisfaction 90 (very hot) at heating
time 20, under the example query's conditions. -/
def obC4 : DailyRecord := ⟨0, 15, 22, 20, 90⟩

/-- A perfect observation with heating time 30 at (15 min, 22°C). -/
def obC3 : DailyRecord := ⟨0, 15, 22, 30, 50⟩

/-- Equally cold / equally hot observations (satisfaction 40 and 60) at
the same heating time 20. -/
def obC5cold : DailyRecord := ⟨0, 15, 22, 20, 40⟩

def obC5hot : DailyRecord := ⟨0, 15, 22, 20, 60⟩

/-- A persistently very hot observation (the stuck-pattern scenarios use
four copies). -/
def obC6hot : DailyRecord := ⟨0, 15, 22, 20, 90⟩

/-- A persistently very cold observation. -/
def obC6cold : DailyRecord := ⟨0, 15, 22, 20, 20⟩

/-- Two same-day user observations at the query's conditions with heating
times 10 and 20, both rated perfect. -/
def obC7a : DailyRecord := ⟨0, 15, 22, 10, 50⟩

def obC7b : DailyRecord := ⟨0, 15, 22, 20, 50⟩

/-- Two user observations 7 days apart (dates 100 and 93), both perfect,
at the query's conditions. -/
def obC8a : DailyRecord := ⟨100, 15, 22, 10, 50⟩

def obC8b : DailyRecord := ⟨93, 15, 22, 20, 50⟩

/-!  ## Helper lemmas -/

theorem clamp_mem (x lo hi : ℚ) (h : lo ≤ hi) :
    lo ≤ V2.clamp x lo hi ∧ V2.clamp x lo hi ≤ hi := by
  unfold V2.clamp
  split_ifs <;> constructor <;> linarith

theorem mathCeil_mem (x : ℚ) (a b : ℤ) (h1 : (a : ℚ) ≤ x) (h2 : x ≤ (b : ℚ)) :
    (a : ℚ) ≤ mathCeil x ∧ mathCeil x ≤ (b : ℚ) := by
  unfold mathCeil
  constructor
  · exact le_trans h1 (Int.le_ceil x)
  · exact_mod_cast Int.ceil_le.mpr h2

theorem mathRound_mem (x : ℚ) (a b : ℤ) (h0 : 0 ≤ a) (h1 : (a : ℚ) ≤ x)
    (h2 : x ≤ (b : ℚ)) : (a : ℚ) ≤ mathRound x ∧ mathRound x ≤ (b : ℚ) := by
  unfold mathRound mathRoundZ
  have hx : ¬ x < 0 := by
    push_neg
    calc (0 : ℚ) ≤ (a : ℚ) := by exact_mod_cast h0
    _ ≤ x := h1
  rw [if_neg hx]
  constructor
  · have : (a : ℤ) ≤ ⌊x + 1/2⌋ := by
      rw [show (a : ℤ) = ⌊((a : ℚ) : ℚ)⌋ by rw [Int.floor_intCast]]
      exact Int.floor_mono (by linarith)
    exact_mod_cast this
  · have : ⌊x + 1/2⌋ ≤ (b : ℤ) := by
      have hb : ⌊x + 1/2⌋ ≤ ⌊(b : ℚ) + 1/2⌋ := Int.floor_mono (by linarith)
      rwa [show ⌊(b : ℚ) + 1/2⌋ = b by
        rw [Int.floor_eq_iff]
        constructor <;> norm_num] at hb
    exact_mod_cast this

theorem mathRound_mono (x y : ℚ) (h : x ≤ y) : mathRound x ≤ mathRound y := by
  unfold mathRound mathRoundZ
  rcases lt_or_le x 0 with hx | hx
  · rcases lt_or_le y 0 with hy | hy
    · rw [if_pos hx, if_pos hy]
      have hf : ⌊-y + 1/2⌋ ≤ ⌊-x + 1/2⌋ := Int.floor_mono (by linarith)
      have hz : (-⌊-x + 1/2⌋ : ℤ) ≤ -⌊-y + 1/2⌋ := by omega
      exact_mod_cast hz
    · rw [if_pos hx, if_neg (not_lt.mpr hy)]
      have h1 : (0 : ℤ) ≤ ⌊-x + 1/2⌋ := Int.floor_nonneg.mpr (by linarith)
      have h2 : (0 : ℤ) ≤ ⌊y + 1/2⌋ := Int.floor_nonneg.mpr (by linarith)
      have hz : (-⌊-x + 1/2⌋ : ℤ) ≤ ⌊y + 1/2⌋ := by omega
      exact_mod_cast hz
  · have hy : (0 : ℚ) ≤ y := le_trans hx h
    rw [if_neg (not_lt.mpr hx), if_neg (not_lt.mpr hy)]
    exact_mod_cast Int.floor_mono (by linarith : x + 1/2 ≤ y + 1/2)

@[simp] theorem weighRecord_rec (F : FloatOracle) (now : ℚ) (cfg : V2.PredictionConfigV2)
    (req : PredictionRequest) (cnt : ℕ) (r : V2.recWrap) :
    (V2.weighRecord F now cfg req cnt r).record = r.record := rfl

@[simp] theorem weighRecord_anc (F : FloatOracle) (now : ℚ) (cfg : V2.PredictionConfigV2)
    (req : PredictionRequest) (cnt : ℕ) (r : V2.recWrap) :
    (V2.weighRecord F now cfg req cnt r).anchor =
      decide (mathAbs (r.record.satisfaction - 50) ≤ cfg.AnchorEpsilon) := rfl

theorem gaussian_pos (F : FloatOracle) (hexp : ∀ x, 0 < F.exp x) (delta sigma : ℚ)
    (hs : 0 < sigma) : 0 < V2.gaussian F delta sigma := by
  unfold V2.gaussian
  rw [if_neg (not_le.mpr hs)]
  exact hexp _

theorem expHalfLife_pos (F : FloatOracle) (hexp : ∀ x, 0 < F.exp x) (days hl : ℚ) :
    0 < V2.expHalfLife F days hl := by
  unfold V2.expHalfLife
  split_ifs
  · norm_num
  · exact hexp _

set_option maxHeartbeats 1000000 in
theorem weighRecord_weight_pos (F : FloatOracle) (hexp : ∀ x, 0 < F.exp x)
    (now : ℚ) (req : PredictionRequest) (cnt : ℕ)
    (hsqrt : 1 < cnt → 0 < F.sqrt (cnt : ℚ)) (r : V2.recWrap) : 0 < (V2.weighRecord F now V2.defaultCfg req cnt r).weight := by
  show 0 <
    (let wDur := V2.gaussian F (req.duration - r.record.showerDuration) 6
     let wTmp := V2.gaussian F (req.temperature - r.record.averageTemperature) 4
     let w := wDur * wTmp
     let w := w * V2.expHalfLife F (mathAbs (now - r.record.date)) 10
     let w := if mathAbs (r.record.satisfaction - 50) ≤ 5 then w * (16/10) else w
     let w := w * V2.gaussian F (r.record.satisfaction - 50) 22
     let w := if 1 < cnt then w * (1 / F.sqrt (cnt : ℚ)) else w
     if r.isUser then w * (14/10) else w)
  have g1 : 0 < V2.gaussian F (req.duration - r.record.showerDuration) 6 :=
    gaussian_pos F hexp _ _ (by norm_num)
  have g2 : 0 < V2.gaussian F (req.temperature - r.record.averageTemperature) 4 :=
    gaussian_pos F hexp _ _ (by norm_num)
  have g3 : 0 < V2.expHalfLife F (mathAbs (now - r.record.date)) 10 :=
    expHalfLife_pos F hexp _ _
  have g4 : 0 < V2.gaussian F (r.record.satisfaction - 50) 22 :=
    gaussian_pos F hexp _ _ (by norm_num)
  split_ifs <;>
    (repeat' apply mul_pos) <;>
    first
      | exact g1
      | exact g2
      | exact g3
      | exact g4
      | exact one_div_pos.mpr (hsqrt (by omega))
      | exact inv_pos.mpr (hsqrt (by omega))
      | exact inv_pos.mpr (by norm_num)
      | norm_num

theorem weightedMean_single (w : V2.recWrap) (hw : 0 < w.weight) :
    V2.weightedMean [w] = w.record.heatingTime := by
  simp only [V2.weightedMean, V2.wmAcc, if_neg (not_le.mpr hw), zero_add]
  rw [if_neg (ne_of_gt hw)]
  exact mul_div_cancel_right₀ _ (ne_of_gt hw)

theorem wm_anchors_single_off (w : V2.recWrap) (h : w.anchor = false) :
    V2.weightedMeanAnchors [w] = (0, 0) := by
  simp [V2.weightedMeanAnchors, V2.wmaAcc, h]

/-!  ## Claim C1 -/

/-- C1: for every query, oracle, clock and snapshot, the heating time
returned by `V2.Predict` under the reference configuration `[5, 120]`
lies within those bounds — for both rounding policies (ceil under
`NeverCold`, round-to-nearest otherwise), applied after the clamp. -/
theorem C1_prediction_within_bounds (F : FloatOracle) (now : ℚ)
    (req : PredictionRequest) (userRecords globalRecords : List DailyRecord)
    (never : Bool) :
    5 ≤ V2.Predict F now (cfgRef never) req userRecords globalRecords ∧
      V2.Predict F now (cfgRef never) req userRecords globalRecords ≤ 120 := by
  unfold V2.Predict
  by_cases hemp : (V2.allWraps userRecords globalRecords).length = 0
  · rw [if_pos hemp]
    cases never <;>
      norm_num [cfgRef, V2.defaultCfg, V2.clamp, mathCeil, mathRound, mathRoundZ]
  · rw [if_neg hemp]
    have hcfg5 : (cfgRef never).MinMinutes = 5 := rfl
    have hcfg120 : (cfgRef never).MaxMinutes = 120 := rfl
    rw [hcfg5, hcfg120]
    have hmem := clamp_mem (V2.stepClamped F now (cfgRef never) req userRecords globalRecords)
      5 120 (by norm_num)
    cases never
    · have hnc : (cfgRef false).NeverCold = false := rfl
      rw [hnc]
      simpa using mathRound_mem _ 5 120 (by norm_num)
        (by exact_mod_cast hmem.1) (by exact_mod_cast hmem.2)
    · have hnc : (cfgRef true).NeverCold = true := rfl
      rw [hnc]
      simpa using mathCeil_mem _ 5 120
        (by exact_mod_cast hmem.1) (by exact_mod_cast hmem.2)

/-!  ## Claim C2 -/

/-- C2 counterexample: at the §8 example query, `V2.Predict` on a fully
empty snapshot returns the conservative default 30 — for every oracle and
clock — while the documented default formula gives 10.3 (`= V1`'s
`predictWithDefaults`). -/
theorem C2_counterexample :
    V2.Predict oracleOne 0 V2.defaultCfg qEx [] [] = 30 ∧
      V1.predictWithDefaults qEx = 103/10 ∧ (30 : ℚ) ≠ 103/10 ∧
      ∀ (F : FloatOracle) (now : ℚ), V2.Predict F now V2.defaultCfg qEx [] [] = 30 := by
  refine ⟨?_, ?_, by norm_num, fun F now => ?_⟩
  · norm_num [V2.Predict, V2.allWraps, V2.clamp, V2.defaultCfg, mathCeil]
  · norm_num [V1.predictWithDefaults, qEx, mathRound, mathRoundZ]
  · norm_num [V2.Predict, V2.allWraps, V2.clamp, V2.defaultCfg, mathCeil]

/-- C2 (amended): on an empty snapshot the v2 predictor returns the
conservative default of 30 minutes (clamped to the bounds), not the
default formula; the documented default formula — 8.0 + 0.3·duration
− 0.1·temperature, clamped to a minimum of 2.0 and rounded to one decimal
— is exactly what v1's `PredictHeatingTime` returns when the store holds
no records. -/
theorem C2_amended (F : FloatOracle) (now : ℚ) (req : PredictionRequest) :
    V2.Predict F now V2.defaultCfg req [] [] = 30 ∧
      V1.PredictHeatingTime now [] req =
        mathRound ((if 8 + req.duration * (3/10) + req.temperature * (-(1/10)) < 2 then 2
          else 8 + req.duration * (3/10) + req.temperature * (-(1/10))) * 10) / 10 := by
  constructor
  · norm_num [V2.Predict, V2.allWraps, V2.clamp, V2.defaultCfg, mathCeil]
  · simp [V1.PredictHeatingTime, V1.predictWithDefaults]

/-!  ## Claim C8 -/

/-- C8 counterexample: the same query against the same two-record snapshot
gives 15.0 when the clock reads day 100 but 14.3 when it reads day 101
(the older record's stepped recency weight drops from 2 to 1.5): `predict`
does depend on the wall clock, so two calls with identical query and
snapshot need not agree. -/
theorem C8_counterexample :
    V1.PredictHeatingTime 100 [obC8a, obC8b] qEx = 15 ∧
      V1.PredictHeatingTime 101 [obC8a, obC8b] qEx = 143/10 ∧
      (15 : ℚ) ≠ 143/10 := by
  refine ⟨?_, ?_, by norm_num⟩ <;>
    norm_num [V1.PredictHeatingTime, V1.calculatePrediction, V1.findSimilarRecords,
      V1.findSimilarRecords.go, V1.calculateFrequencyWeight, V1.freqAcc, V1.predAcc,
      V1.calculatePerfectScoreDecay, V1.subsequentAttempts, V1.adjustment,
      V1.predictWithDefaults, sumBy, mathAbs, mathRound, mathRoundZ, obC8a, obC8b, qEx]

@[simp] theorem shiftRecord_showerDuration (d : ℚ) (r : DailyRecord) :
    (shiftRecord d r).showerDuration = r.showerDuration := rfl

@[simp] theorem shiftRecord_averageTemperature (d : ℚ) (r : DailyRecord) :
    (shiftRecord d r).averageTemperature = r.averageTemperature := rfl

@[simp] theorem shiftRecord_heatingTime (d : ℚ) (r : DailyRecord) :
    (shiftRecord d r).heatingTime = r.heatingTime := rfl

@[simp] theorem shiftRecord_satisfaction (d : ℚ) (r : DailyRecord) :
    (shiftRecord d r).satisfaction = r.satisfaction := rfl

@[simp] theorem shiftRecord_date (d : ℚ) (r : DailyRecord) :
    (shiftRecord d r).date = r.date + d := rfl

theorem freqAcc_shift (req : PredictionRequest) (d : ℚ) (l : List DailyRecord) :
    V1.freqAcc req (l.map (shiftRecord d)) = V1.freqAcc req l := by
  induction l with
  | nil => rfl
  | cons r rest ih => simp [V1.freqAcc, ih]

theorem cfw_shift (req : PredictionRequest) (d : ℚ) (l : List DailyRecord)
    (r r' : DailyRecord) :
    V1.calculateFrequencyWeight req (l.map (shiftRecord d)) r =
      V1.calculateFrequencyWeight req l r' := by
  simp [V1.calculateFrequencyWeight, freqAcc_shift]

@[simp] theorem shiftSimilar_record (d : ℚ) (sr : V1.SimilarRecord) :
    (shiftSimilar d sr).record = shiftRecord d sr.record := rfl

@[simp] theorem shiftSimilar_similarity (d : ℚ) (sr : V1.SimilarRecord) :
    (shiftSimilar d sr).similarity = sr.similarity := rfl

@[simp] theorem shiftSimilar_weight (d : ℚ) (sr : V1.SimilarRecord) :
    (shiftSimilar d sr).weight = sr.weight := rfl

theorem fsr_go_shift (now d : ℚ) (req : PredictionRequest)
    (records l : List DailyRecord) :
    V1.findSimilarRecords.go (now + d) req (records.map (shiftRecord d))
        (l.map (shiftRecord d)) =
      (V1.findSimilarRecords.go now req records l).map (shiftSimilar d) := by
  induction l with
  | nil => rfl
  | cons r rest ih =>
    have hdate : now + d - (r.date + d) = now - r.date := by ring
    simp only [List.map_cons, V1.findSimilarRecords.go, shiftRecord_showerDuration,
      shiftRecord_averageTemperature, shiftRecord_date, hdate,
      cfw_shift req d records r r, ih]
    split_ifs <;> simp [shiftSimilar] <;>
      exact Or.inl (cfw_shift req d records _ r)

theorem fsr_shift (now d : ℚ) (req : PredictionRequest) (records : List DailyRecord) :
    V1.findSimilarRecords (now + d) req (records.map (shiftRecord d)) =
      (V1.findSimilarRecords now req records).map (shiftSimilar d) :=
  fsr_go_shift now d req records records

theorem subsequentAttempts_shift (d : ℚ) (p : DailyRecord) (l : List V1.SimilarRecord) :
    V1.subsequentAttempts (shiftRecord d p) (l.map (shiftSimilar d)) =
      (V1.subsequentAttempts p l).map (shiftRecord d) := by
  induction l with
  | nil => rfl
  | cons sr rest ih =>
    simp only [List.map_cons, V1.subsequentAttempts, shiftSimilar_record,
      shiftRecord_heatingTime, shiftRecord_date, add_lt_add_iff_right, ih]
    split_ifs <;> rfl

theorem sumBy_satisfaction_shift (d : ℚ) (l : List DailyRecord) :
    sumBy (·.satisfaction) (l.map (shiftRecord d)) = sumBy (·.satisfaction) l := by
  induction l with
  | nil => rfl
  | cons r rest ih => simp [sumBy, ih]

theorem decay_shift (d : ℚ) (p : DailyRecord) (l : List V1.SimilarRecord) :
    V1.calculatePerfectScoreDecay (shiftRecord d p) (l.map (shiftSimilar d)) =
      V1.calculatePerfectScoreDecay p l := by
  simp [V1.calculatePerfectScoreDecay, subsequentAttempts_shift,
    sumBy_satisfaction_shift]

theorem predAcc_shift (d : ℚ) (all l : List V1.SimilarRecord) :
    V1.predAcc (all.map (shiftSimilar d)) (l.map (shiftSimilar d)) = V1.predAcc all l := by
  induction l with
  | nil => rfl
  | cons sr rest ih =>
    simp only [List.map_cons, V1.predAcc, shiftSimilar_record, shiftSimilar_weight,
      shiftRecord_heatingTime, shiftRecord_satisfaction, decay_shift, V1.adjustment, ih]

theorem calculatePrediction_shift (now d : ℚ) (req : PredictionRequest)
    (records : List DailyRecord) :
    V1.calculatePrediction (now + d) req (records.map (shiftRecord d)) =
      V1.calculatePrediction now req records := by
  simp only [V1.calculatePrediction, fsr_shift, predAcc_shift, List.length_map]

/-- The v1 engine is invariant under translating the clock and every
record date together. -/
theorem predictV1_shift (now d : ℚ) (records : List DailyRecord) (req : PredictionRequest) :
    V1.PredictHeatingTime (now + d) (records.map (shiftRecord d)) req =
      V1.PredictHeatingTime now records req := by
  simp only [V1.PredictHeatingTime, calculatePrediction_shift, List.length_map]

@[simp] theorem shiftWrap_record (d : ℚ) (w : V2.recWrap) :
    (shiftWrap d w).record = shiftRecord d w.record := rfl

@[simp] theorem shiftWrap_isUser (d : ℚ) (w : V2.recWrap) :
    (shiftWrap d w).isUser = w.isUser := rfl

@[simp] theorem shiftWrap_weight (d : ℚ) (w : V2.recWrap) :
    (shiftWrap d w).weight = w.weight := rfl

@[simp] theorem shiftWrap_anchor (d : ℚ) (w : V2.recWrap) :
    (shiftWrap d w).anchor = w.anchor := rfl

@[simp] theorem freqCellKey_shift (d : ℚ) (r : DailyRecord) :
    V2.freqCellKey (shiftRecord d r) = V2.freqCellKey r := rfl

theorem allWraps_shift (d : ℚ) (ur gr : List DailyRecord) :
    V2.allWraps (ur.map (shiftRecord d)) (gr.map (shiftRecord d)) =
      (V2.allWraps ur gr).map (shiftWrap d) := by
  simp only [V2.allWraps, List.map_append, List.map_map]
  rfl

theorem cellCount_go_shift (d : ℚ) (key : ℤ × ℤ) (l : List V2.recWrap) :
    V2.cellCount.go key (l.map (shiftWrap d)) = V2.cellCount.go key l := by
  induction l with
  | nil => rfl
  | cons w rest ih => simp [V2.cellCount.go, ih]

theorem cellCount_shift (d : ℚ) (key : ℤ × ℤ) (l : List V2.recWrap) :
    V2.cellCount (l.map (shiftWrap d)) key = V2.cellCount l key :=
  cellCount_go_shift d key l

theorem weighRecord_shift (F : FloatOracle) (now d : ℚ) (cfg : V2.PredictionConfigV2)
    (req : PredictionRequest) (cnt : ℕ) (w : V2.recWrap) :
    V2.weighRecord F (now + d) cfg req cnt (shiftWrap d w) =
      shiftWrap d (V2.weighRecord F now cfg req cnt w) := by
  have hdate : now + d - (w.record.date + d) = now - w.record.date := by ring
  simp [V2.weighRecord, shiftWrap, shiftRecord, hdate]

theorem weighted_shift (F : FloatOracle) (now d : ℚ) (cfg : V2.PredictionConfigV2)
    (req : PredictionRequest) (ur gr : List DailyRecord) :
    V2.weighted F (now + d) cfg req (ur.map (shiftRecord d)) (gr.map (shiftRecord d)) =
      (V2.weighted F now cfg req ur gr).map (shiftWrap d) := by
  simp only [V2.weighted, allWraps_shift, List.map_map]
  apply List.map_congr_left
  intro w _
  simp only [Function.comp_apply, shiftWrap_record, freqCellKey_shift, cellCount_shift]
  exact weighRecord_shift F now d cfg req _ w

theorem insertByWeight_shift (d : ℚ) (x : V2.recWrap) (l : List V2.recWrap) :
    V2.insertByWeight (shiftWrap d x) (l.map (shiftWrap d)) =
      (V2.insertByWeight x l).map (shiftWrap d) := by
  induction l with
  | nil => rfl
  | cons y rest ih =>
    simp only [List.map_cons, V2.insertByWeight, shiftWrap_weight, ih]
    split_ifs <;> rfl

theorem sortByWeight_shift (d : ℚ) (l : List V2.recWrap) :
    V2.sortByWeight (l.map (shiftWrap d)) = (V2.sortByWeight l).map (shiftWrap d) := by
  unfold V2.sortByWeight
  induction l with
  | nil => rfl
  | cons x rest ih => simp only [List.map_cons, List.foldr_cons, ih, insertByWeight_shift]

theorem topK_shift (d : ℚ) (cfg : V2.PredictionConfigV2) (l : List V2.recWrap) :
    V2.topK cfg (l.map (shiftWrap d)) = (V2.topK cfg l).map (shiftWrap d) := by
  simp only [V2.topK, sortByWeight_shift, List.length_map, List.map_take]

theorem wmAcc_shift (d : ℚ) (l : List V2.recWrap) :
    V2.wmAcc (l.map (shiftWrap d)) = V2.wmAcc l := by
  induction l with
  | nil => rfl
  | cons w rest ih => simp [V2.wmAcc, ih]

theorem wmaAcc_shift (d : ℚ) (l : List V2.recWrap) :
    V2.wmaAcc (l.map (shiftWrap d)) = V2.wmaAcc l := by
  induction l with
  | nil => rfl
  | cons w rest ih => simp [V2.wmaAcc, ih]

theorem sumWeights_shift (d : ℚ) (l : List V2.recWrap) :
    V2.sumWeights (l.map (shiftWrap d)) = V2.sumWeights l := by
  induction l with
  | nil => rfl
  | cons w rest ih => simp [V2.sumWeights, ih]

theorem latestUserRecord_shift (d : ℚ) (ur : List DailyRecord) :
    V2.latestUserRecord (ur.map (shiftRecord d)) =
      (V2.latestUserRecord ur).map (shiftRecord d) := by
  cases ur with
  | nil => rfl
  | cons r rs =>
    simp only [List.map_cons, V2.latestUserRecord, Option.map_some]
    congr 1
    induction rs generalizing r with
    | nil => rfl
    | cons x rest ih =>
      simp only [List.map_cons, List.foldl_cons, shiftRecord_date, add_lt_add_iff_right]
      rw [show (if r.date < x.date then shiftRecord d x else shiftRecord d r) =
        shiftRecord d (if r.date < x.date then x else r) by split_ifs <;> rfl]
      exact ih _

theorem blendedEstimate_shift (F : FloatOracle) (now d : ℚ)
    (cfg : V2.PredictionConfigV2) (req : PredictionRequest)
    (ur gr : List DailyRecord) :
    V2.blendedEstimate F (now + d) cfg req (ur.map (shiftRecord d)) (gr.map (shiftRecord d)) =
      V2.blendedEstimate F now cfg req ur gr := by
  simp only [V2.blendedEstimate, weighted_shift, topK_shift, V2.weightedMean,
    V2.weightedMeanAnchors, wmAcc_shift, wmaAcc_shift, sumWeights_shift]

theorem stepClamped_shift (F : FloatOracle) (now d : ℚ)
    (cfg : V2.PredictionConfigV2) (req : PredictionRequest)
    (ur gr : List DailyRecord) :
    V2.stepClamped F (now + d) cfg req (ur.map (shiftRecord d)) (gr.map (shiftRecord d)) =
      V2.stepClamped F now cfg req ur gr := by
  simp only [V2.stepClamped, blendedEstimate_shift, latestUserRecord_shift]
  cases V2.latestUserRecord ur with
  | none => rfl
  | some last => simp

/-- The v2 engine is invariant under translating the clock and every
record date together. -/
theorem predictV2_shift (F : FloatOracle) (now d : ℚ)
    (cfg : V2.PredictionConfigV2) (req : PredictionRequest)
    (ur gr : List DailyRecord) :
    V2.Predict F (now + d) cfg req (ur.map (shiftRecord d)) (gr.map (shiftRecord d)) =
      V2.Predict F now cfg req ur gr := by
  have hlen : (V2.allWraps (ur.map (shiftRecord d)) (gr.map (shiftRecord d))).length =
      (V2.allWraps ur gr).length := by
    rw [allWraps_shift, List.length_map]
  simp only [V2.Predict, hlen, stepClamped_shift]

/-- C8 (amended): each prediction engine is a deterministic pure function
of the query, the observation snapshot and the *clock reading*: translating
the clock and every record date by the same amount leaves the returned
heating time unchanged, for v1 and for v2 under every configuration and
oracle.  The wall clock itself, however, is a genuine input read through
`time.Now()` — `C8_counterexample` exhibits two clock readings giving
different results for one query and snapshot — so only calls made at the
same clock reading are guaranteed identical results. -/
theorem C8_amended (F : FloatOracle) (now d : ℚ)
    (records ur gr : List DailyRecord) (req : PredictionRequest)
    (cfg : V2.PredictionConfigV2) :
    V1.PredictHeatingTime (now + d) (records.map (shiftRecord d)) req =
      V1.PredictHeatingTime now records req ∧
    V2.Predict F (now + d) cfg req (ur.map (shiftRecord d)) (gr.map (shiftRecord d)) =
      V2.Predict F now cfg req ur gr :=
  ⟨predictV1_shift now d records req, predictV2_shift F now d cfg req ur gr⟩

/-!  ## Claim C5 -/

/-- C5 counterexample: two observations with the same heating time 20 and
satisfactions equally far from perfect (40 and 60) get implied targets
whose adjustments are opposite in sign but *not* equal in magnitude —
`impliedTarget` gives +3.5904 against −1.6, and v1's inline adjustment
gives +40/49 against −4/5. -/
theorem C5_counterexample :
    V2T.impliedTarget obC5hot = 92/5 ∧ V2T.impliedTarget obC5cold = 14744/625 ∧
      ¬ (V2T.impliedTarget obC5cold - obC5cold.heatingTime =
          -(V2T.impliedTarget obC5hot - obC5hot.heatingTime)) ∧
      V1.adjustment obC5cold = 40/49 ∧ V1.adjustment obC5hot = -(4/5) ∧
      ¬ (V1.adjustment obC5cold = -(V1.adjustment obC5hot)) := by
  refine ⟨?_, ?_, ?_, ?_, ?_, ?_⟩ <;>
    norm_num [V2T.impliedTarget, V1.adjustment, obC5cold, obC5hot, mathAbs]

set_option maxHeartbeats 1000000 in
/-- C5 (amended): for equal distances δ > 1 from perfect at the same
heating time h > 0, the corrections are opposite in *sign* — the cold
observation's implied target exceeds h, the hot one's lies below h — but
not in magnitude: v1 adds 4δ/49 for cold against 4δ/50 for hot, which
differ for every δ > 0. -/
theorem C5_amended (h δ : ℚ) (hh : 0 < h) (h1 : 1 < δ) :
    h < V2T.impliedTarget ⟨0, 15, 22, h, 50 - δ⟩ ∧
      V2T.impliedTarget ⟨0, 15, 22, h, 50 + δ⟩ < h ∧
      V1.adjustment ⟨0, 15, 22, h, 50 - δ⟩ = δ / 49 * 4 ∧
      V1.adjustment ⟨0, 15, 22, h, 50 + δ⟩ = -(δ / 50 * 4) ∧
      δ / 50 * 4 < δ / 49 * 4 := by
  have hd : (0 : ℚ) < δ / 50 := div_pos (by linarith) (by norm_num)
  have hcold : (⟨0, 15, 22, h, 50 - δ⟩ : DailyRecord).satisfaction < 50 := by
    show (50 - δ : ℚ) < 50
    linarith
  have hhot : (⟨0, 15, 22, h, 50 + δ⟩ : DailyRecord).satisfaction > 50 := by
    show (50 + δ : ℚ) > 50
    linarith
  refine ⟨?_, ?_, ?_, ?_, ?_⟩
  · simp only [V2T.impliedTarget, mathAbs]
    split_ifs <;> try linarith
    have hP : (0 : ℚ) < 12/100 + 28/100 * ((50 - (50 - δ)) / 50) := by linarith
    have hQ : (0 : ℚ) < 1 + 10/100 * ((50 - (50 - δ)) / 50) := by linarith
    nlinarith [mul_pos hh (mul_pos hP hQ)]
  · simp only [V2T.impliedTarget, mathAbs]
    split_ifs <;> linarith
  · simp only [V1.adjustment]
    rw [if_pos hcold]
    show (50 - (50 - δ)) / 49 * 4 = δ / 49 * 4
    ring
  · simp only [V1.adjustment]
    rw [if_neg (not_lt.mpr (le_of_lt hhot)), if_pos hhot]
    show -((50 + δ - 50) / 50 * 4) = -(δ / 50 * 4)
    ring
  · have : δ / 50 < δ / 49 := by
      apply div_lt_div_of_pos_left (by linarith) (by norm_num) (by norm_num)
    linarith

theorem C5_amended_witness :
    20 < V2T.impliedTarget ⟨0, 15, 22, 20, 50 - 10⟩ ∧
      V2T.impliedTarget ⟨0, 15, 22, 20, 50 + 10⟩ < 20 ∧
      V1.adjustment ⟨0, 15, 22, 20, 50 - 10⟩ = 10 / 49 * 4 ∧
      V1.adjustment ⟨0, 15, 22, 20, 50 + 10⟩ = -(10 / 50 * 4) ∧
      (10 : ℚ) / 50 * 4 < 10 / 49 * 4 :=
  C5_amended 20 10 (by norm_num) (by norm_num)

/-!  ## Claim C10 -/

theorem smartRound_isInt (est lastSat : ℚ) :
    ∃ z : ℤ, V2T.smartRound est lastSat = (z : ℚ) := by
  simp only [V2T.smartRound, mathFloor, mathCeil, mathRound]
  split_ifs <;> exact ⟨_, rfl⟩

/-- C10: on a non-empty snapshot the v2 predictors return an integer
number of minutes: the final step is always `math.Ceil`, `math.Floor` or
`math.Round` of the clamped estimate, for every configuration, oracle and
clock — the caller never receives a fractional recommendation. -/
theorem C10_prediction_is_integer (F : FloatOracle) (now : ℚ)
    (cfg : V2.PredictionConfigV2) (req : PredictionRequest)
    (ur gr : List DailyRecord) (h : ur.length + gr.length ≠ 0) :
    (∃ z : ℤ, V2.Predict F now cfg req ur gr = (z : ℚ)) ∧
      ∃ z : ℤ, V2T.Predict F now cfg req ur gr = (z : ℚ) := by
  have hlen : ¬ (V2.allWraps ur gr).length = 0 := by
    simp only [V2.allWraps, List.length_append, List.length_map]
    exact h
  constructor
  · unfold V2.Predict
    rw [if_neg hlen]
    cases cfg.NeverCold <;> simp [mathCeil, mathRound]
  · unfold V2T.Predict
    rw [if_neg hlen]
    cases V2T.lastUserFeedback ur with
    | none => simp [mathRound]
    | some lastSat => simpa using smartRound_isInt _ lastSat

theorem C10_witness :
    (∃ z : ℤ, V2.Predict oracleOne 0 V2.defaultCfg qEx [obC4] [] = (z : ℚ)) ∧
      ∃ z : ℤ, V2T.Predict oracleOne 0 V2.defaultCfg qEx [obC4] [] = (z : ℚ) :=
  C10_prediction_is_integer oracleOne 0 V2.defaultCfg qEx [obC4] [] (by norm_num)

/-!  ## Claim C9 -/

theorem wmAcc_nonpos (recs : List V2.recWrap) (h : ∀ r ∈ recs, r.weight ≤ 0) :
    V2.wmAcc recs = (0, 0) := by
  induction recs with
  | nil => rfl
  | cons r rest ih =>
    have h1 : r.weight ≤ 0 := h r (List.mem_cons_self r rest)
    have h2 : ∀ x ∈ rest, x.weight ≤ 0 := fun x hx => h x (List.mem_cons_of_mem r hx)
    simp only [V2.wmAcc, ih h2, if_pos h1]

/-- C9 counterexample: with both fetches succeeding but empty, `Predict`
returns `ok 30` — the conservative default, not the documented default
formula, whose value at this query is 8.6. -/
theorem C9_counterexample :
    V2.PredictRun ℕ oracleOne 0 V2.defaultCfg qC9 (.ok []) (.ok []) = .ok 30 ∧
      V1.predictWithDefaults qC9 = 43/5 ∧ ¬ ((30 : ℚ) = 43/5) ∧
      ∀ (F : FloatOracle) (now : ℚ),
        V2.PredictRun ℕ F now V2.defaultCfg qC9 (.ok []) (.ok []) = .ok 30 := by
  refine ⟨?_, ?_, by norm_num, fun F now => ?_⟩
  · norm_num [V2.PredictRun, V2.Predict, V2.allWraps, V2.clamp, V2.defaultCfg, mathCeil]
  · norm_num [V1.predictWithDefaults, qC9, mathRound, mathRoundZ]
  · norm_num [V2.PredictRun, V2.Predict, V2.allWraps, V2.clamp, V2.defaultCfg, mathCeil]

/-- C9 (amended): a failing Observation-Store fetch propagates to the
caller as that same error, with no numeric prediction, for either fetch —
never masked as a fallback; fetches that succeed with an empty snapshot
yield `ok` with the conservative default 30 (not the default formula, see
`C2`), and degenerate weights (all non-positive) make `weightedMean` fall
back to 30 rather than fail — sparse data is never an error. -/
theorem C9_amended (ε : Type) (F : FloatOracle) (now : ℚ)
    (cfg : V2.PredictionConfigV2) (req : PredictionRequest) (e : ε)
    (globalFetch : Except ε (List DailyRecord)) (ur : List DailyRecord)
    (recs : List V2.recWrap) (hw : ∀ r ∈ recs, r.weight ≤ 0) :
    V2.PredictRun ε F now cfg req (.error e) globalFetch = .error e ∧
      V2.PredictRun ε F now cfg req (.ok ur) (.error e) = .error e ∧
      V2.PredictRun ε F now V2.defaultCfg req (.ok []) (.ok []) = .ok 30 ∧
      V2.weightedMean recs = 30 := by
  refine ⟨rfl, rfl, ?_, ?_⟩
  · norm_num [V2.PredictRun, V2.Predict, V2.allWraps, V2.clamp, V2.defaultCfg, mathCeil]
  · simp [V2.weightedMean, wmAcc_nonpos recs hw]

theorem C9_amended_witness :
    V2.PredictRun ℕ oracleOne 0 V2.defaultCfg qEx (.error 7) (.ok []) = .error 7 ∧
      V2.PredictRun ℕ oracleOne 0 V2.defaultCfg qEx (.ok []) (.error 7) = .error 7 ∧
      V2.PredictRun ℕ oracleOne 0 V2.defaultCfg qEx (.ok []) (.ok []) = .ok 30 ∧
      V2.weightedMean [{ record := obC4, isUser := true }] = 30 :=
  C9_amended ℕ oracleOne 0 V2.defaultCfg qEx 7 (.ok []) []
    [{ record := obC4, isUser := true }] (by intro r hr; simp at hr; simp [hr])

/-!  ## Claim C6 -/

/-- C6 counterexample: a window of four identical very-hot observations
(satisfaction 90, heating time 20, zero variance) — 100% of the window
above any "too hot" threshold — does *not* trigger the stuck-pattern
bypass (`isStuckInPattern` counts only satisfaction *below* 50), and the
prediction comes out of the ordinary weighted path as 5, not the
strategic jump 15 (= 20 − 25%) that `handleStuckPattern` would return —
for every oracle with `exp 0 = 1`, as the real exponential has (all
records are same-day, so the exponential is only applied at 0). -/
theorem C6_counterexample :
    V1H.isStuckInPattern [obC6hot, obC6hot, obC6hot, obC6hot] = false ∧
      V1H.handleStuckPattern [obC6hot, obC6hot, obC6hot, obC6hot] = 15 ∧
      V1H.calculatePrediction oracleOne 0 qEx [obC6hot, obC6hot, obC6hot, obC6hot] 4 = 5 ∧
      ¬ ((5 : ℚ) = 15) ∧
      ∀ F : FloatOracle, F.exp 0 = 1 →
        V1H.calculatePrediction F 0 qEx [obC6hot, obC6hot, obC6hot, obC6hot] 4 = 5 := by
  have hgen : ∀ F : FloatOracle, F.exp 0 = 1 →
      V1H.calculatePrediction F 0 qEx [obC6hot, obC6hot, obC6hot, obC6hot] 4 = 5 := by
    intro F hF
    norm_num [V1H.calculatePrediction, V1H.findSimilarRecords, V1H.findSimilarRecords.go,
      V1H.calculateFrequencyWeight, V1.freqAcc, V1H.isStuckInPattern, V1H.getRecentRecords,
      V1H.handleStuckPattern, V1H.findWeightedSuccessAnchors, V1H.fwsaGo,
      V1H.applySuccessAnchorLogic, V1H.anchorAcc, V1H.applyGraduatedAdjustment,
      V1H.predAcc, V1H.loopAdjustment, V1H.calculateDynamicLearningRate,
      V1H.detectExtremeFeedbackPattern, V1H.efpStep, V1H.calculateContextualBoost,
      V1H.analyzeColdProgression, V1H.analyzeHotProgression,
      V1H.calculateAdjustmentAggressiveness, V1H.aggAcc,
      V1H.countConsecutiveHotFeedback, V1H.countConsecutiveHotFeedback.go,
      V1H.calculatePerfectScoreDecay, V1H.subsequentAttempts, V1H.predictWithDefaults,
      sumBy, mathAbs, mathMin, mathMax, mathRound, mathRoundZ, hF, obC6hot, qEx]
  refine ⟨?_, ?_, hgen oracleOne rfl, by norm_num, hgen⟩
  · norm_num [V1H.isStuckInPattern, V1H.getRecentRecords, sumBy, obC6hot]
  · norm_num [V1H.handleStuckPattern, V1H.getRecentRecords, sumBy, obC6hot]

/-- C6 (amended): the stuck-pattern bypass fires only on *cold* stuck
windows: whenever at least one similar record exists and
`isStuckInPattern` holds — which requires the last four records to have
heating-time variance below 4 AND at least three (75%) satisfaction
scores *below* perfect; a window that is persistently above a too-hot
threshold never triggers it — `calculatePrediction` bypasses the weighted
estimate and returns `handleStuckPattern`'s strategic jump from the
window's mean heating time: +50% when the mean satisfaction is below 30,
+30% below 45, and mirrored −25% above 70 / −15% above 55 (else +20%). -/
theorem C6_amended (F : FloatOracle) (now : ℚ) (req : PredictionRequest)
    (records : List DailyRecord) (n : ℕ)
    (hsim : (V1H.findSimilarRecords F now req records).length ≠ 0)
    (hstuck : V1H.isStuckInPattern records = true) :
    V1H.calculatePrediction F now req records n = V1H.handleStuckPattern records ∧
      3 ≤ ((V1H.getRecentRecords records 4).filter
        (fun record => decide (record.satisfaction < 50))).length ∧
      V1H.handleStuckPattern records =
        (if sumBy (·.satisfaction) (V1H.getRecentRecords records 4) / 4 < 30 then
          sumBy (·.heatingTime) (V1H.getRecentRecords records 4) / 4 * (3/2)
        else if sumBy (·.satisfaction) (V1H.getRecentRecords records 4) / 4 < 45 then
          sumBy (·.heatingTime) (V1H.getRecentRecords records 4) / 4 * (13/10)
        else if 70 < sumBy (·.satisfaction) (V1H.getRecentRecords records 4) / 4 then
          sumBy (·.heatingTime) (V1H.getRecentRecords records 4) / 4 * (75/100)
        else if 55 < sumBy (·.satisfaction) (V1H.getRecentRecords records 4) / 4 then
          sumBy (·.heatingTime) (V1H.getRecentRecords records 4) / 4 * (85/100)
        else sumBy (·.heatingTime) (V1H.getRecentRecords records 4) / 4 * (12/10)) := by
  have hlen4 : ¬ records.length < 4 := by
    intro hlt
    rw [V1H.isStuckInPattern, if_pos hlt] at hstuck
    exact Bool.false_ne_true hstuck
  have hrecent : (V1H.getRecentRecords records 4).length = 4 := by
    unfold V1H.getRecentRecords
    split_ifs with hle
    · omega
    · rw [List.length_drop]
      omega
  refine ⟨?_, ?_, ?_⟩
  · unfold V1H.calculatePrediction
    rw [if_neg hsim, if_pos hstuck]
  · rw [V1H.isStuckInPattern, if_neg hlen4] at hstuck
    simp only [decide_eq_true_eq] at hstuck
    exact hstuck.2
  · simp only [V1H.handleStuckPattern, hrecent]
    norm_num

theorem C6_amended_witness :
    V1H.calculatePrediction oracleOne 0 qEx [obC6cold, obC6cold, obC6cold, obC6cold] 4 =
        V1H.handleStuckPattern [obC6cold, obC6cold, obC6cold, obC6cold] ∧
      3 ≤ ((V1H.getRecentRecords [obC6cold, obC6cold, obC6cold, obC6cold] 4).filter
        (fun record => decide (record.satisfaction < 50))).length ∧
      V1H.handleStuckPattern [obC6cold, obC6cold, obC6cold, obC6cold] =
        (if sumBy (·.satisfaction) (V1H.getRecentRecords [obC6cold, obC6cold, obC6cold, obC6cold] 4) / 4 < 30 then
          sumBy (·.heatingTime) (V1H.getRecentRecords [obC6cold, obC6cold, obC6cold, obC6cold] 4) / 4 * (3/2)
        else if sumBy (·.satisfaction) (V1H.getRecentRecords [obC6cold, obC6cold, obC6cold, obC6cold] 4) / 4 < 45 then
          sumBy (·.heatingTime) (V1H.getRecentRecords [obC6cold, obC6cold, obC6cold, obC6cold] 4) / 4 * (13/10)
        else if 70 < sumBy (·.satisfaction) (V1H.getRecentRecords [obC6cold, obC6cold, obC6cold, obC6cold] 4) / 4 then
          sumBy (·.heatingTime) (V1H.getRecentRecords [obC6cold, obC6cold, obC6cold, obC6cold] 4) / 4 * (75/100)
        else if 55 < sumBy (·.satisfaction) (V1H.getRecentRecords [obC6cold, obC6cold, obC6cold, obC6cold] 4) / 4 then
          sumBy (·.heatingTime) (V1H.getRecentRecords [obC6cold, obC6cold, obC6cold, obC6cold] 4) / 4 * (85/100)
        else sumBy (·.heatingTime) (V1H.getRecentRecords [obC6cold, obC6cold, obC6cold, obC6cold] 4) / 4 * (12/10)) :=
  C6_amended oracleOne 0 qEx [obC6cold, obC6cold, obC6cold, obC6cold] 4
    (by norm_num [V1H.findSimilarRecords, V1H.findSimilarRecords.go,
      V1H.calculateFrequencyWeight, V1.freqAcc, mathAbs, oracleOne, obC6cold, qEx])
    (by norm_num [V1H.isStuckInPattern, V1H.getRecentRecords, sumBy, obC6cold])

/-!  ## Claim C7 -/

/-- For every oracle with positive `exp` and positive `sqrt 2`, the v2
predictor on the two same-cell perfect records (heating times 10 and 20)
returns 14: the two records carry equal weights, the raw weighted mean is
15, the step clamp against the latest record (heating time 10) caps it at
13.5, and the `NeverCold` ceil rounds up to 14 — outside the ±35% band
[6.5, 13.5]. -/
theorem predictV2_pair_roundup (F : FloatOracle) (hexp : ∀ x, 0 < F.exp x)
    (hs : 0 < F.sqrt 2) :
    V2.Predict F 0 V2.defaultCfg qEx [obC7a, obC7b] [] = 14 := by
  have hwrap : V2.weighted F 0 V2.defaultCfg qEx [obC7a, obC7b] [] =
      [V2.weighRecord F 0 V2.defaultCfg qEx 2 { record := obC7a, isUser := true },
       V2.weighRecord F 0 V2.defaultCfg qEx 2 { record := obC7b, isUser := true }] := by
    norm_num [V2.weighted, V2.allWraps, V2.cellCount, V2.cellCount.go, V2.freqCellKey,
      mathRoundZ, obC7a, obC7b]
  have heq : (V2.weighRecord F 0 V2.defaultCfg qEx 2 { record := obC7b, isUser := true }).weight =
      (V2.weighRecord F 0 V2.defaultCfg qEx 2 { record := obC7a, isUser := true }).weight := by
    norm_num [V2.weighRecord, obC7a, obC7b]
  set wa := V2.weighRecord F 0 V2.defaultCfg qEx 2 { record := obC7a, isUser := true } with hwa
  set wb := V2.weighRecord F 0 V2.defaultCfg qEx 2 { record := obC7b, isUser := true } with hwb
  have hwpos : 0 < wa.weight :=
    weighRecord_weight_pos F hexp 0 qEx 2 (fun _ => hs) _
  have hsort : V2.sortByWeight [wa, wb] = [wb, wa] := by
    simp only [V2.sortByWeight, List.foldr_cons, List.foldr_nil, V2.insertByWeight, heq]
    rw [if_neg (lt_irrefl _)]
  have htop : V2.topK V2.defaultCfg (V2.weighted F 0 V2.defaultCfg qEx [obC7a, obC7b] []) =
      [wb, wa] := by
    rw [hwrap]
    show V2.topK V2.defaultCfg [wa, wb] = [wb, wa]
    simp only [V2.topK, hsort]
    norm_num [V2.defaultCfg]
  have hmean : V2.weightedMean [wb, wa] = 15 := by
    have hne : (0:ℚ) + wa.weight + wa.weight ≠ 0 := by nlinarith
    simp only [V2.weightedMean, V2.wmAcc, if_neg (not_le.mpr hwpos),
      if_neg (not_le.mpr (heq ▸ hwpos)), heq]
    rw [if_neg hne, show wa.record = obC7a from rfl, show wb.record = obC7b from rfl,
      show obC7a.heatingTime = 10 from rfl, show obC7b.heatingTime = 20 from rfl,
      div_eq_iff hne]
    ring
  have hanca : wa.anchor = true := by
    rw [hwa]
    norm_num [weighRecord_anc, V2.defaultCfg, mathAbs, obC7a]
  have hancb : wb.anchor = true := by
    rw [hwb]
    norm_num [weighRecord_anc, V2.defaultCfg, mathAbs, obC7b]
  have hmeanA : V2.weightedMeanAnchors [wb, wa] = (15, 0 + wa.weight + wa.weight) := by
    have hne : (0:ℚ) + wa.weight + wa.weight ≠ 0 := by nlinarith
    have hdec : decide (wa.weight ≤ 0) = false := decide_eq_false (not_le.mpr hwpos)
    simp only [V2.weightedMeanAnchors, V2.wmaAcc, hanca, hancb, Bool.not_true, heq, hdec,
      Bool.or_self, Bool.false_eq_true, if_false]
    rw [if_neg hne, show wa.record = obC7a from rfl, show wb.record = obC7b from rfl,
      show obC7a.heatingTime = 10 from rfl, show obC7b.heatingTime = 20 from rfl]
    rw [Prod.mk.injEq]
    refine ⟨?_, rfl⟩
    rw [div_eq_iff hne]
    ring
  have hblend : V2.blendedEstimate F 0 V2.defaultCfg qEx [obC7a, obC7b] [] = 15 := by
    unfold V2.blendedEstimate
    rw [htop]
    simp only [hmean, hmeanA]
    rw [if_pos (by nlinarith : (0:ℚ) < 0 + wa.weight + wa.weight)]
    ring
  have hstep : V2.stepClamped F 0 V2.defaultCfg qEx [obC7a, obC7b] [] = 27/2 := by
    unfold V2.stepClamped
    rw [hblend]
    norm_num [V2.latestUserRecord, V2.clamp, obC7a, obC7b, V2.defaultCfg]
  unfold V2.Predict
  rw [if_neg (by norm_num [V2.allWraps])]
  simp only [hstep]
  norm_num [V2.clamp, V2.defaultCfg, mathCeil]
  rw [show (⌈(27:ℚ)/2⌉ : ℤ) = 14 by norm_num [Int.ceil_eq_iff]]
  norm_num

/-- C7 counterexample: the user's latest record (same day, same
conditions as the query) has heating time 10, the step band is
[6.5, 13.5], the pre-rounding estimate is clamped to 13.5 — and the
`NeverCold` ceil then returns 14, which deviates from 10 by 40% > 35%.
The step cap therefore does not survive the rounding policy. -/
theorem C7_counterexample :
    V2.Predict oracleOne 0 V2.defaultCfg qEx [obC7a, obC7b] [] = 14 ∧
      V2.latestUserRecord [obC7a, obC7b] = some obC7a ∧
      obC7a.heatingTime = 10 ∧
      V2.stepClamped oracleOne 0 V2.defaultCfg qEx [obC7a, obC7b] [] = 27/2 ∧
      (10 : ℚ) * (1 + 35/100) < 14 ∧
      ∀ F : FloatOracle, (∀ x, 0 < F.exp x) → 0 < F.sqrt 2 →
        V2.Predict F 0 V2.defaultCfg qEx [obC7a, obC7b] [] = 14 := by
  refine ⟨predictV2_pair_roundup oracleOne (fun _ => by norm_num [oracleOne])
      (by norm_num [oracleOne]), ?_, rfl, ?_, by norm_num,
    fun F hexp hs => predictV2_pair_roundup F hexp hs⟩
  · norm_num [V2.latestUserRecord, obC7a, obC7b]
  · norm_num [V2.allWraps, V2.weighted, V2.weighRecord, V2.stepClamped,
      V2.blendedEstimate, V2.topK, V2.sortByWeight, V2.insertByWeight, V2.weightedMean,
      V2.wmAcc, V2.weightedMeanAnchors, V2.wmaAcc, V2.sumWeights, V2.latestUserRecord,
      V2.clamp, V2.gaussian, V2.expHalfLife, V2.cellCount, V2.cellCount.go, V2.freqCellKey,
      V2.defaultCfg, oracleOne, mathAbs, mathMin, qEx, obC7a, obC7b]

/-- C7 (amended): the ±35% step cap holds for the *pre-rounding,
pre-absolute-bounds* estimate: whenever the user has any record (the
clamp uses the latest one, similar to the query or not), the value after
step 7 lies within ±35% of that record's heating time. The final returned
value can still leave the band through the `[5, 120]` absolute clamp and
through rounding (by up to one minute, as in `C7_counterexample`). -/
theorem C7_amended (F : FloatOracle) (now : ℚ) (req : PredictionRequest)
    (ur gr : List DailyRecord) (last : DailyRecord)
    (hlast : V2.latestUserRecord ur = some last) (hh : 0 ≤ last.heatingTime) :
    last.heatingTime * (1 - 35/100) ≤ V2.stepClamped F now V2.defaultCfg req ur gr ∧
      V2.stepClamped F now V2.defaultCfg req ur gr ≤ last.heatingTime * (1 + 35/100) := by
  unfold V2.stepClamped
  rw [hlast]
  have hband : last.heatingTime * (1 - (35:ℚ)/100) ≤ last.heatingTime * (1 + 35/100) := by
    nlinarith
  have hcap : V2.defaultCfg.StepCapFraction = 35/100 := rfl
  simpa [hcap] using clamp_mem (V2.blendedEstimate F now V2.defaultCfg req ur gr)
    (last.heatingTime * (1 - 35/100)) (last.heatingTime * (1 + 35/100)) hband

theorem C7_amended_witness :
    obC7a.heatingTime * (1 - 35/100) ≤
        V2.stepClamped oracleOne 0 V2.defaultCfg qEx [obC7a, obC7b] [] ∧
      V2.stepClamped oracleOne 0 V2.defaultCfg qEx [obC7a, obC7b] [] ≤
        obC7a.heatingTime * (1 + 35/100) :=
  C7_amended oracleOne 0 qEx [obC7a, obC7b] [] obC7a
    (by norm_num [V2.latestUserRecord, obC7a, obC7b]) (by norm_num [obC7a])

/-!  ## Claim C3 -/

theorem fsr18_generic (F : FloatOracle) :
    V1H.findSimilarRecords F 0 ⟨18, 22⟩ [obC3] =
      [{ record := obC3, similarity := 1/2,
         weight := 1/2 * (F.exp 0 * (3/2)) }] := by
  norm_num [V1H.findSimilarRecords, V1H.findSimilarRecords.go,
    V1H.calculateFrequencyWeight, V1.freqAcc, mathAbs, obC3]
  ring


theorem calc18_generic (F : FloatOracle) (hF : ∀ x, 0 < F.exp x) :
    V1H.calculatePrediction F 0 ⟨18, 22⟩ [obC3] 1 = 30 := by
  unfold V1H.calculatePrediction
  rw [fsr18_generic F]
  norm_num [V1H.isStuckInPattern, V1H.findWeightedSuccessAnchors, V1H.fwsaGo,
    V1H.predAcc, V1H.loopAdjustment, V1H.calculatePerfectScoreDecay,
    V1H.subsequentAttempts, sumBy, V1H.applySuccessAnchorLogic, obC3]
  have hw : (0:ℚ) < 1 / 2 * (F.exp 0 * (3 / 2)) := by
    have := hF 0
    linarith
  rw [if_pos (hF 0), mul_div_cancel_right₀ (30:ℚ) (ne_of_gt hw)]
  norm_num

theorem gcp18_generic (F : FloatOracle) (hF : ∀ x, 0 < F.exp x) :
    V1H.getCombinedPrediction F 0 ⟨18, 22⟩ [obC3] [] = 30 := by
  have hcfr : V1H.calculatePredictionFromRecords F 0 ⟨18, 22⟩ [obC3] [obC3].length = 30 := by
    rw [show ([obC3] : List DailyRecord).length = 1 from rfl]
    rw [show V1H.calculatePredictionFromRecords F 0 ⟨18, 22⟩ [obC3] 1 =
        V1H.calculatePrediction F 0 ⟨18, 22⟩ [obC3] 1 from by
      norm_num [V1H.calculatePredictionFromRecords]]
    exact calc18_generic F hF
  unfold V1H.getCombinedPrediction
  simp only [hcfr]
  norm_num [V1H.calculateUserWeight, V1H.relevantCount, V1H.getClusteredGlobalRecords,
    V1H.clusterFilter, V1H.calculatePredictionFromRecords, V1H.predictWithDefaults,
    mathAbs, mathMin, mathRound, mathRoundZ, obC3]

theorem gcp19_generic (F : FloatOracle) :
    V1H.getCombinedPrediction F 0 ⟨19, 22⟩ [obC3] [] = 16 := by
  norm_num [V1H.getCombinedPrediction, V1H.calculateUserWeight, V1H.relevantCount,
    V1H.getClusteredGlobalRecords, V1H.clusterFilter, V1H.calculatePredictionFromRecords,
    V1H.calculatePrediction, V1H.findSimilarRecords, V1H.findSimilarRecords.go,
    V1H.calculateFrequencyWeight, V1.freqAcc, V1H.predictWithDefaults,
    sumBy, mathAbs, mathMin, mathMax, mathRound, mathRoundZ, obC3]

/-- C3 counterexample: with a single perfect user observation (30 minutes
at 15 min / 22°C) and an empty global pool, the blended prediction at
duration 18 is 30 but at duration 19 it is 16: increasing the duration by
one minute *decreases* the blended prediction by 14 minutes, far beyond
the ±0.5 tolerance (the query leaves the user's ±3-minute similarity
window, so the user weight drops from 0.1 to 0 and the default formula
takes over) — and this holds for every oracle with positive `exp`. -/
theorem C3_counterexample :
    V1H.getCombinedPrediction oracleOne 0 ⟨18, 22⟩ [obC3] [] = 30 ∧
      V1H.getCombinedPrediction oracleOne 0 ⟨19, 22⟩ [obC3] [] = 16 ∧
      V1H.getCombinedPrediction oracleOne 0 ⟨19, 22⟩ [obC3] [] + 1/2 <
        V1H.getCombinedPrediction oracleOne 0 ⟨18, 22⟩ [obC3] [] ∧
      ∀ F : FloatOracle, (∀ x, 0 < F.exp x) →
        V1H.getCombinedPrediction F 0 ⟨19, 22⟩ [obC3] [] + 1/2 <
          V1H.getCombinedPrediction F 0 ⟨18, 22⟩ [obC3] [] := by
  have h18 := gcp18_generic oracleOne (fun _ => by norm_num [oracleOne])
  have h19 := gcp19_generic oracleOne
  refine ⟨h18, h19, by rw [h18, h19]; norm_num, fun F hF => ?_⟩
  rw [gcp18_generic F hF, gcp19_generic F]
  norm_num

/-- C3 (amended): monotonicity — non-decreasing in duration, non-increasing
in temperature — holds for the cold-start default formula of the blending
engine, but `C3_counterexample` shows it fails (beyond the ±0.5 tolerance)
for the blended prediction itself once user history interacts with the
hard similarity window. -/
theorem C3_amended (d1 d2 t t1 t2 d : ℚ) (hd : d1 ≤ d2) (ht : t1 ≤ t2) :
    V1H.predictWithDefaults ⟨d1, t⟩ ≤ V1H.predictWithDefaults ⟨d2, t⟩ ∧
      V1H.predictWithDefaults ⟨d, t2⟩ ≤ V1H.predictWithDefaults ⟨d, t1⟩ := by
  constructor
  · unfold V1H.predictWithDefaults
    apply mathRound_mono
    have hlin : 12 + d1 * (4/10) + t * (-(15/100)) ≤ 12 + d2 * (4/10) + t * (-(15/100)) := by
      linarith
    split_ifs <;> linarith
  · unfold V1H.predictWithDefaults
    apply mathRound_mono
    have hlin : 12 + d * (4/10) + t2 * (-(15/100)) ≤ 12 + d * (4/10) + t1 * (-(15/100)) := by
      linarith
    split_ifs <;> linarith

theorem C3_amended_witness :
    V1H.predictWithDefaults ⟨10, 20⟩ ≤ V1H.predictWithDefaults ⟨12, 20⟩ ∧
      V1H.predictWithDefaults ⟨10, 25⟩ ≤ V1H.predictWithDefaults ⟨10, 20⟩ :=
  C3_amended 10 12 20 20 25 10 (by norm_num) (by norm_num)

/-!  ## Claim C4 -/

/-- For every oracle whose `exp` is positive — as the real exponential is —
the checked-in v2 predictor returns exactly 20 on the single
satisfaction-90 observation: the single record's weight cancels in
`weightedMean`, which averages *raw* heating times, and the step clamp,
bounds clamp and ceil leave 20 unchanged. -/
theorem predictV2_single_hot (F : FloatOracle) (hexp : ∀ x, 0 < F.exp x) :
    V2.Predict F 0 V2.defaultCfg qEx [obC4] [] = 20 := by
  unfold V2.Predict
  rw [if_neg (by norm_num [V2.allWraps])]
  have hwrap : V2.weighted F 0 V2.defaultCfg qEx [obC4] [] =
      [V2.weighRecord F 0 V2.defaultCfg qEx 1 { record := obC4, isUser := true }] := by
    norm_num [V2.weighted, V2.allWraps, V2.cellCount, V2.cellCount.go]
  have htop : V2.topK V2.defaultCfg (V2.weighted F 0 V2.defaultCfg qEx [obC4] []) =
      [V2.weighRecord F 0 V2.defaultCfg qEx 1 { record := obC4, isUser := true }] := by
    rw [hwrap]
    norm_num [V2.topK, V2.sortByWeight, V2.insertByWeight, V2.defaultCfg]
  have hwpos : 0 < (V2.weighRecord F 0 V2.defaultCfg qEx 1
      { record := obC4, isUser := true }).weight :=
    weighRecord_weight_pos F hexp 0 qEx 1 (fun h => absurd h (by norm_num)) _
  have hanc : (V2.weighRecord F 0 V2.defaultCfg qEx 1
      { record := obC4, isUser := true }).anchor = false := by
    norm_num [weighRecord_anc, V2.defaultCfg, mathAbs, obC4]
  have hblend : V2.blendedEstimate F 0 V2.defaultCfg qEx [obC4] [] = 20 := by
    unfold V2.blendedEstimate
    rw [htop]
    simp only [weightedMean_single _ hwpos, wm_anchors_single_off _ hanc]
    norm_num [weighRecord_rec, obC4]
  have hstep : V2.stepClamped F 0 V2.defaultCfg qEx [obC4] [] = 20 := by
    unfold V2.stepClamped
    rw [hblend]
    norm_num [V2.latestUserRecord, V2.clamp, obC4, V2.defaultCfg]
  simp only [hstep]
  norm_num [V2.clamp, V2.defaultCfg, mathCeil]

/-- C4 counterexample: for the snapshot holding exactly the
satisfaction-90, heating-time-20 observation, `prediction_service_v2.go`'s
`Predict` (whose `weightedMean` averages raw heating times) returns
exactly 20 under the same conditions — not strictly less than 20 — for
every oracle with positive `exp`. -/
theorem C4_counterexample :
    V2.Predict oracleOne 0 V2.defaultCfg qEx [obC4] [] = 20 ∧
      ¬ (V2.Predict oracleOne 0 V2.defaultCfg qEx [obC4] [] < 20) ∧
      ∀ F : FloatOracle, (∀ x, 0 < F.exp x) →
        V2.Predict F 0 V2.defaultCfg qEx [obC4] [] = 20 := by
  have h := predictV2_single_hot oracleOne (fun _ => by norm_num [oracleOne])
  exact ⟨h, by rw [h]; norm_num, fun F hexp => predictV2_single_hot F hexp⟩

set_option maxHeartbeats 1000000 in
theorem weighRecordT_weight_pos (F : FloatOracle) (hexp : ∀ x, 0 < F.exp x)
    (now : ℚ) (req : PredictionRequest) (r : V2.recWrap)
    (hanchor : ¬ mathAbs (r.record.satisfaction - 50) ≤ 0) :
    0 < (V2.weighRecord F now V2T.defaultCfgT req 1 r).weight := by
  show 0 <
    (let wDur := V2.gaussian F (req.duration - r.record.showerDuration) 4
     let wTmp := V2.gaussian F (req.temperature - r.record.averageTemperature) 3
     let w := wDur * wTmp
     let w := w * V2.expHalfLife F (mathAbs (now - r.record.date)) 5
     let w := if mathAbs (r.record.satisfaction - 50) ≤ 0 then w * 0 else w
     let w := w * V2.gaussian F (r.record.satisfaction - 50) 22
     let w := if 1 < 1 then w * (1 / F.sqrt (1 : ℚ)) else w
     if r.isUser then w * 2 else w)
  have g1 : 0 < V2.gaussian F (req.duration - r.record.showerDuration) 4 :=
    gaussian_pos F hexp _ _ (by norm_num)
  have g2 : 0 < V2.gaussian F (req.temperature - r.record.averageTemperature) 3 :=
    gaussian_pos F hexp _ _ (by norm_num)
  have g3 : 0 < V2.expHalfLife F (mathAbs (now - r.record.date)) 5 :=
    expHalfLife_pos F hexp _ _
  have g4 : 0 < V2.gaussian F (r.record.satisfaction - 50) 22 :=
    gaussian_pos F hexp _ _ (by norm_num)
  simp only [if_neg hanchor, if_neg (by norm_num : ¬ (1 : ℕ) < 1)]
  split_ifs <;>
    (repeat' apply mul_pos) <;>
    first
      | exact g1
      | exact g2
      | exact g3
      | exact g4
      | norm_num

theorem wmt_single (w : V2.recWrap) (hw : 0 < w.weight) :
    V2T.weightedMeanTargets [w] = V2T.impliedTarget w.record := by
  simp only [V2T.weightedMeanTargets, V2T.wmtAcc, if_neg (not_le.mpr hw), zero_add]
  rw [if_neg (ne_of_gt hw)]
  exact mul_div_cancel_right₀ _ (ne_of_gt hw)

theorem wmta_single_off (w : V2.recWrap) (h : w.anchor = false) :
    V2T.weightedMeanTargetsAnchors [w] = (0, 0) := by
  simp [V2T.weightedMeanTargetsAnchors, V2T.wmtaAcc, h]

/-- For every oracle with positive `exp`, the implied-target v2 revision
predicts 15 on the single satisfaction-90 observation: the implied target
is 20·0.75 = 15, within the step band [13, 27], within bounds, and
`smartRound` floors it to 15 (the user's last feedback was hot). -/
theorem predictV2T_single_hot (F : FloatOracle) (hexp : ∀ x, 0 < F.exp x) :
    V2T.Predict F 0 V2T.defaultCfgT qEx [obC4] [] = 15 := by
  unfold V2T.Predict
  rw [if_neg (by norm_num [V2.allWraps])]
  have hwrap : V2.weighted F 0 V2T.defaultCfgT qEx [obC4] [] =
      [V2.weighRecord F 0 V2T.defaultCfgT qEx 1 { record := obC4, isUser := true }] := by
    norm_num [V2.weighted, V2.allWraps, V2.cellCount, V2.cellCount.go]
  have htop : V2.topK V2T.defaultCfgT (V2.weighted F 0 V2T.defaultCfgT qEx [obC4] []) =
      [V2.weighRecord F 0 V2T.defaultCfgT qEx 1 { record := obC4, isUser := true }] := by
    rw [hwrap]
    norm_num [V2.topK, V2.sortByWeight, V2.insertByWeight, V2T.defaultCfgT]
  have hwpos : 0 < (V2.weighRecord F 0 V2T.defaultCfgT qEx 1
      { record := obC4, isUser := true }).weight :=
    weighRecordT_weight_pos F hexp 0 qEx _ (by norm_num [mathAbs, obC4])
  have hanc : (V2.weighRecord F 0 V2T.defaultCfgT qEx 1
      { record := obC4, isUser := true }).anchor = false := by
    norm_num [weighRecord_anc, V2T.defaultCfgT, mathAbs, obC4]
  have hblend : V2T.blendedEstimate F 0 V2T.defaultCfgT qEx [obC4] [] = 15 := by
    unfold V2T.blendedEstimate
    rw [htop]
    simp only [wmt_single _ hwpos, wmta_single_off _ hanc]
    norm_num [weighRecord_rec, V2T.impliedTarget, mathAbs, obC4]
  have hstep : V2T.stepClamped F 0 V2T.defaultCfgT qEx [obC4] [] = 15 := by
    unfold V2T.stepClamped
    rw [hblend]
    norm_num [V2T.latestSimilarUserRecord, V2.clamp, mathAbs, obC4, qEx, V2T.defaultCfgT]
  simp only [hstep]
  norm_num [V2.clamp, V2T.defaultCfgT, V2T.lastUserFeedback, V2T.smartRound,
    mathFloor, mathCeil, mathRound, mathRoundZ, obC4]

/-- C4 (amended): the §8 single-observation scenario (satisfaction 90 at
heating time 20) yields a prediction strictly below 20 in the
implied-target v2 revision, which returns 15 = 20 · 0.75; the checked-in
`prediction_service_v2.go`, whose `weightedMean` averages raw heating
times, returns exactly 20 (`C4_counterexample`), so the strict reduction
holds only for the implied-target variant. -/
theorem C4_amended (F : FloatOracle) (hexp : ∀ x, 0 < F.exp x) :
    V2T.Predict F 0 V2T.defaultCfgT qEx [obC4] [] = 15 ∧
      V2T.Predict F 0 V2T.defaultCfgT qEx [obC4] [] < 20 := by
  have h := predictV2T_single_hot F hexp
  exact ⟨h, by rw [h]; norm_num⟩

theorem C4_amended_witness :
    V2T.Predict oracleOne 0 V2T.defaultCfgT qEx [obC4] [] = 15 ∧
      V2T.Predict oracleOne 0 V2T.defaultCfgT qEx [obC4] [] < 20 :=
  C4_amended oracleOne (fun _ => by norm_num [oracleOne])
